import Mathlib

/-!
# Smart Farming Assistant: the `App` component

A shallow embedding of `src/App.js`: the component state held by the seven
`useState` hooks, the two event handlers `fetchCurrentLocationWeather` and
`fetchWeatherForCity` (with their `try / catch / finally` structure), and the
element tree built by `renderWeatherBlock` and by the two block lines of the
component's `return`.

The services the component imports (`./services/weatherService`,
`./services/aiService`, `expo-location`, `expo-constants`) are not part of the
file; the outcome of every call to them is a field of `Env`, and so is the
kind of React root, which decides whether a state setter re-renders at once.
-/

namespace CropApp

/-! ## Data -/

/-- A thrown JavaScript value.  Both handlers catch it without looking at it. -/
abbrev JSError := String

/-- The `main` sub-record of a provider response (`weather.main`). -/
structure Main where
  temp : Option ℚ
  humidity : Option ℚ
deriving DecidableEq

/-- One entry of the `weather` list of a provider response. -/
structure Condition where
  description : Option String
deriving DecidableEq

/-- A provider response, in the shape `renderWeatherBlock` dereferences it:
`weather.name`, `weather.main.temp`, `weather.main.humidity`,
`weather.weather[0].description`.  A field that is absent is `none`
(`undefined` in the source). -/
structure Weather where
  name : Option String
  main : Option Main
  weather : Option (List Condition)
deriving DecidableEq

/-- The record returned by `getPretrainedPlantingAdvice`: two slots, each a
string or absent. -/
structure Advice where
  planting : Option String
  pesticide : Option String
deriving DecidableEq

/-- The `coords` of the value returned by `Location.getCurrentPositionAsync`. -/
structure Coords where
  latitude : ℚ
  longitude : ℚ
deriving DecidableEq

/-- The seven `useState` cells of `App` (lines 9-15).  `none` is `null`. -/
structure AppState where
  currentWeather : Option Weather
  cityWeather : Option Weather
  locationAdvice : Option Advice
  cityAdvice : Option Advice
  city : String
  loading : Bool
  errorMessage : String
deriving DecidableEq

/-- The state of the first render: the initial values of lines 9-15. -/
def initialState : AppState :=
  { currentWeather := none, cityWeather := none, locationAdvice := none,
    cityAdvice := none, city := "", loading := false, errorMessage := "" }

/-- A call the component makes to one of its collaborators, with its arguments. -/
inductive Effect where
  | requestForegroundPermissionsAsync
  | getCurrentPositionAsync
  | getWeather (latitude longitude : ℚ) (apiKey : String)
  | getWeatherByCity (city apiKey : String)
  | getPretrainedPlantingAdvice (weatherData : Weather)
deriving DecidableEq

/-- The collaborators of the component: the configured API key, for each
imported function what a call to it yields (a value, or a thrown error), and
the kind of React root the component is mounted in.  Under a legacy root a
state setter that runs after an `await` re-renders the component before it
returns; under a concurrent root the render is deferred until the handler has
finished. -/
structure Env where
  legacyRoot : Bool
  apiKey : String
  requestForegroundPermissionsAsync : Except JSError String
  getCurrentPositionAsync : Except JSError Coords
  getWeather : ℚ → ℚ → String → Except JSError Weather
  getWeatherByCity : String → String → Except JSError Weather
  getPretrainedPlantingAdvice : Weather → Except JSError Advice

/-! ## The element tree -/

/-- The entries of `StyleSheet.create` (lines 117-140) that the blocks use. -/
inductive Style where
  | card
  | sectionTitle
  | adviceBlock
  | adviceTitle
  | adviceText
deriving DecidableEq

/-- What a JSX expression of the block evaluates to: a `View` or `Text`
element with its children in source order, a string or a number placed as a
child, or a value that React renders as nothing (`undefined`, `null`). -/
inductive Node where
  | view (style : Style) (children : List Node)
  | text (style : Option Style) (children : List Node)
  | str (s : String)
  | num (q : ℚ)
  | nothing

/-- The children of an element; a leaf has none. -/
def Node.children : Node → List Node
  | .view _ cs => cs
  | .text _ cs => cs
  | _ => []

/-- A string-valued expression `{e}` placed as a child: `undefined` renders
nothing. -/
def strChild : Option String → Node
  | some s => .str s
  | none => .nothing

/-- A number-valued expression `{e}` placed as a child. -/
def numChild : Option ℚ → Node
  | some q => .num q
  | none => .nothing

/-- Member access `x.field` on a value that may be `undefined`: a `TypeError`
when it is. -/
def deref {α : Type} : Option α → Except JSError α
  | some a => .ok a
  | none => .error "TypeError"

/-- The advice block of lines 72-75 and 79-82: a titled view holding the
message. -/
def adviceBlock (heading message : String) : Node :=
  .view .adviceBlock [.text (some .adviceTitle) [.str heading], .text (some .adviceText) [.str message]]

/-- The expression `slot && (<View>...</View>)` of lines 71 and 78, where `slot`
is `advice?.planting` or `advice?.pesticide`: a falsy left operand (`undefined`,
or the empty string) is the value of the expression, a truthy one gives the
block. -/
def adviceSlot (heading : String) (slot : Option String) : Node :=
  match slot with
  | none => .nothing
  | some message => if message = "" then .str "" else adviceBlock heading message

/-- Lines 63-85.  `advice?.planting` is `undefined` for a `null` advice. -/
def renderWeatherBlock (title : String) (weather : Weather) (advice : Option Advice) :
    Except JSError Node := do
  let main ← deref weather.main
  let conditions ← deref weather.weather
  let first ← deref conditions.head?
  return .view .card
    [ .text (some .sectionTitle) [.str title],
      .text none [.str "📍 Location: ", strChild weather.name],
      .text none [.str "🌡️ Temperature: ", numChild main.temp, .str "°C"],
      .text none [.str "💧 Humidity: ", numChild main.humidity, .str "%"],
      .text none [.str "🌤️ Condition: ", strChild first.description],
      adviceSlot "🌱 Planting Advice" (advice.bind fun a => a.planting),
      adviceSlot "🧪 Pesticide Control" (advice.bind fun a => a.pesticide) ]

/-- String conversion inside a template literal: `undefined` becomes the text
`undefined`. -/
def templateText : Option String → String
  | some s => s
  | none => "undefined"

/-- Line 111: `currentWeather && renderWeatherBlock(...)`. -/
def currentLocationBlock (s : AppState) : Except JSError Node :=
  match s.currentWeather with
  | none => .ok .nothing
  | some w => renderWeatherBlock "📍 Current Location" w s.locationAdvice

/-- The title of the city block, the template literal of line 112. -/
def cityTitle (w : Weather) : String := "🏙️ " ++ templateText w.name

/-- Line 112: `cityWeather && renderWeatherBlock(...)`. -/
def cityBlock (s : AppState) : Except JSError Node :=
  match s.cityWeather with
  | none => .ok .nothing
  | some w => renderWeatherBlock (cityTitle w) w s.cityAdvice

/-- The part of the component's `return` (lines 87-114) that can throw: the two
block lines, evaluated in source order.  The other children are built from
literals and from `city`, `loading` and `errorMessage` alone. -/
def renderApp (s : AppState) : Except JSError (Node × Node) := do
  let current ← currentLocationBlock s
  let cityNode ← cityBlock s
  return (current, cityNode)

/-- The record has what `renderWeatherBlock` dereferences: the `main`
sub-record and a first condition entry. -/
def Weather.canRender (w : Weather) : Bool :=
  w.main.isSome && (w.weather.bind List.head?).isSome

/-- Both blocks of the state can be rendered: each weather cell is `null` or
holds a record with its `main` sub-record and a first condition entry. -/
def AppState.canRender (s : AppState) : Bool :=
  (match s.currentWeather with
    | none => true
    | some w => w.canRender) &&
  (match s.cityWeather with
    | none => true
    | some w => w.canRender)

/-! ## Handlers as state-passing computations with exceptions -/

/-- What a handler threads through its statements: the component state after
the state setters run so far, and the calls made so far (oldest first). -/
structure Run where
  state : AppState
  trace : List Effect

/-- A handler body: it ends by returning a value or by throwing, and in both
cases leaves a `Run` behind. -/
def Handler (α : Type) : Type := Run → Except JSError α × Run

namespace Handler

/-- A statement that completes normally with value `a`. -/
def ret {α : Type} (a : α) : Handler α := fun r => (.ok a, r)

/-- Sequencing: a throw in `m` skips `f`. -/
def andThen {α β : Type} (m : Handler α) (f : α → Handler β) : Handler β :=
  fun r =>
    match m r with
    | (.ok a, r1) => f a r1
    | (.error e, r1) => (.error e, r1)

/-- The source's `try body catch (error) handler`. -/
def tryCatch {α : Type} (body : Handler α) (handler : JSError → Handler α) : Handler α :=
  fun r =>
    match body r with
    | (.ok a, r1) => (.ok a, r1)
    | (.error e, r1) => handler e r1

/-- The source's `try body finally fin`: `fin` runs on both exits of `body`;
a throw in `fin` replaces the completion of `body`. -/
def tryFinally {α : Type} (body : Handler α) (fin : Handler Unit) : Handler α :=
  fun r =>
    match body r with
    | (res, r1) =>
      match fin r1 with
      | (.ok _, r2) => (res, r2)
      | (.error e, r2) => (.error e, r2)

/-- A call to a collaborator: it is recorded, then yields its outcome. -/
def call {α : Type} (eff : Effect) (outcome : Except JSError α) : Handler α :=
  fun r => (outcome, { r with trace := r.trace ++ [eff] })

/-- A state setter of `useState`.  The cell is updated.  When the setter
re-renders at once (`rerender`: a legacy root, after an `await`) and the
component is still mounted (its state before the update renders), the new
state is rendered before the setter returns; a `TypeError` thrown by that
render unmounts the component and is rethrown by the setter.  A component
whose state does not render is unmounted, and setters no longer render it. -/
def setState (rerender : Bool) (f : AppState → AppState) : Handler Unit :=
  fun r =>
    match rerender, renderApp r.state, renderApp (f r.state) with
    | true, .ok _, .error e => (.error e, { r with state := f r.state })
    | _, _, _ => (.ok (), { r with state := f r.state })

/-- Reads the component state captured by the handler. -/
def read : Handler AppState := fun r => (.ok r.state, r)

end Handler

instance : Monad Handler where
  pure := Handler.ret
  bind := Handler.andThen

/-- When a setter runs: inside the event that started the handler, where React
batches the update under either root, or after an `await`. -/
inductive Timing where
  | inEvent
  | afterAwait
deriving DecidableEq

/-- Whether a setter running at this time re-renders before it returns. -/
def rerendersAtOnce (env : Env) : Timing → Bool
  | .inEvent => false
  | .afterAwait => env.legacyRoot

/-- The setter `setLoading`. -/
def setLoading (env : Env) (t : Timing) (b : Bool) : Handler Unit :=
  Handler.setState (rerendersAtOnce env t) fun s => { s with loading := b }

/-- The setter `setErrorMessage`. -/
def setErrorMessage (env : Env) (t : Timing) (m : String) : Handler Unit :=
  Handler.setState (rerendersAtOnce env t) fun s => { s with errorMessage := m }

/-- The setter `setCurrentWeather`. -/
def setCurrentWeather (env : Env) (t : Timing) (w : Weather) : Handler Unit :=
  Handler.setState (rerendersAtOnce env t) fun s => { s with currentWeather := some w }

/-- The setter `setLocationAdvice`. -/
def setLocationAdvice (env : Env) (t : Timing) (a : Advice) : Handler Unit :=
  Handler.setState (rerendersAtOnce env t) fun s => { s with locationAdvice := some a }

/-- The setter `setCityWeather`. -/
def setCityWeather (env : Env) (t : Timing) (w : Weather) : Handler Unit :=
  Handler.setState (rerendersAtOnce env t) fun s => { s with cityWeather := some w }

/-- The setter `setCityAdvice`. -/
def setCityAdvice (env : Env) (t : Timing) (a : Advice) : Handler Unit :=
  Handler.setState (rerendersAtOnce env t) fun s => { s with cityAdvice := some a }

/-- The setter `setCity`, wired to the text input (`onChangeText`); it runs
inside the input's event. -/
def setCity (text : String) : Handler Unit :=
  Handler.setState false fun s => { s with city := text }

/-- Lines 21-45.  The `return` of line 29 leaves the `try` block, so the
`finally` block still runs after it; the rest of the `try` body is the `else`
branch here.  The first `await` is the permission request of line 25: the two
setters before it run inside the event, every later one after an `await`. -/
def fetchCurrentLocationWeather (env : Env) : Handler Unit :=
  Handler.tryFinally
    (Handler.tryCatch
      (do
        setLoading env .inEvent true
        setErrorMessage env .inEvent ""
        let status ← Handler.call .requestForegroundPermissionsAsync env.requestForegroundPermissionsAsync
        if status ≠ "granted" then
          setErrorMessage env .afterAwait "Permission to access location was denied"
          setLoading env .afterAwait false
        else
          let location ← Handler.call .getCurrentPositionAsync env.getCurrentPositionAsync
          let weatherData ←
            Handler.call (.getWeather location.latitude location.longitude env.apiKey)
              (env.getWeather location.latitude location.longitude env.apiKey)
          setCurrentWeather env .afterAwait weatherData
          let advice ←
            Handler.call (.getPretrainedPlantingAdvice weatherData)
              (env.getPretrainedPlantingAdvice weatherData)
          setLocationAdvice env .afterAwait advice)
      (fun _ => setErrorMessage env .afterAwait "Failed to get weather for current location"))
    (setLoading env .afterAwait false)

/-- Lines 47-61.  `!city` holds exactly for the empty string.  The first `await`
is the lookup of line 53. -/
def fetchWeatherForCity (env : Env) : Handler Unit := do
  let s ← Handler.read
  if s.city = "" then
    Handler.ret ()
  else
    Handler.tryFinally
      (Handler.tryCatch
        (do
          setLoading env .inEvent true
          setErrorMessage env .inEvent ""
          let weatherData ←
            Handler.call (.getWeatherByCity s.city env.apiKey) (env.getWeatherByCity s.city env.apiKey)
          setCityWeather env .afterAwait weatherData
          let advice ←
            Handler.call (.getPretrainedPlantingAdvice weatherData)
              (env.getPretrainedPlantingAdvice weatherData)
          setCityAdvice env .afterAwait advice)
        (fun _ => setErrorMessage env .afterAwait "City not found or weather data unavailable"))
      (setLoading env .afterAwait false)

/-- Runs a handler from component state `s` with an empty call record. -/
def runHandler (h : Handler Unit) (s : AppState) : Except JSError Unit × Run :=
  h { state := s, trace := [] }

/-! ## Runs of the component -/

/-- Something that happens to the mounted component: one of the two buttons is
pressed (the handler then runs against the collaborators' outcomes `env`; the
mount effect of lines 17-19 is a first `refreshLocation`), or the text input
changes. -/
inductive Event where
  | refreshLocation (env : Env)
  | checkCity (env : Env)
  | typeCity (text : String)

/-- The state after one event.  `getPretrainedPlantingAdvice` is one and the
same function `advise` in every event; the other outcomes are the event's own. -/
def applyEvent (advise : Weather → Except JSError Advice) (s : AppState) : Event → AppState
  | .refreshLocation env =>
      (runHandler (fetchCurrentLocationWeather { env with getPretrainedPlantingAdvice := advise }) s).2.state
  | .checkCity env =>
      (runHandler (fetchWeatherForCity { env with getPretrainedPlantingAdvice := advise }) s).2.state
  | .typeCity text => (runHandler (setCity text) s).2.state

/-- The state reached from the initial state after the events, in order. -/
def runEvents (advise : Weather → Except JSError Advice) (events : List Event) : AppState :=
  events.foldl (applyEvent advise) initialState

/-- A block is paired when its advice is what `advise` returns for its weather;
a block without a weather record is paired. -/
def pairedWith (advise : Weather → Except JSError Advice) (weather : Option Weather)
    (advice : Option Advice) : Bool :=
  match weather with
  | none => true
  | some w =>
    match advise w with
    | .ok a => advice == some a
    | .error _ => false

/-- The description of the first condition entry of a
response, as the block reads it; `none` when the field or a record on the
way to it is missing. -/
def Weather.description (w : Weather) : Option String :=
  (w.weather.bind List.head?).bind fun c => c.description

/-- The temperature of a response, `none` when missing. -/
def Weather.temperature (w : Weather) : Option ℚ := w.main.bind fun m => m.temp

/-- The humidity of a response, `none` when missing. -/
def Weather.humidity (w : Weather) : Option ℚ := w.main.bind fun m => m.humidity

/-- An incomplete observation in the specification's sense (section 4.1): the
temperature, the humidity or the description of the first condition entry is
missing. -/
def Weather.isIncomplete (w : Weather) : Bool :=
  w.temperature.isNone || w.humidity.isNone || w.description.isNone

/-- The call record holds no call of `getPretrainedPlantingAdvice`. -/
def adviceNotInvoked (trace : List Effect) : Prop :=
  ∀ w, Effect.getPretrainedPlantingAdvice w ∉ trace

/-! ## The advisory rule engine -/

/-- Modelled from the spec: the `WeatherObservation` record of section 3, the
input of the rule engine; `./services/aiService` is not part of the sources. -/
structure WeatherObservation where
  locationName : String
  temperatureCelsius : ℚ
  humidityPercent : ℕ
  conditionDescription : String

/-- Modelled from the spec: the `AdvisoryRule` record of section 3 (the rule
table of `./services/aiService` is missing). -/
structure AdvisoryRule where
  predicate : WeatherObservation → Bool
  plantingMessage : Option String
  pesticideMessage : Option String
  priority : ℤ

/-- Modelled from the spec: the `AdvisoryResult` record of section 3, the value
of the missing `getPretrainedPlantingAdvice`. -/
structure AdvisoryResult where
  planting : Option String
  pesticide : Option String
deriving DecidableEq

/-- Modelled from the spec: one insertion of the stable ordering of section 4.2,
step 1 (missing `./services/aiService`): `r`, declared before every rule of
the list, goes in front of the first rule whose priority is not lower. -/
def insertByPriority (r : AdvisoryRule) : List AdvisoryRule → List AdvisoryRule
  | [] => [r]
  | x :: xs => if r.priority ≤ x.priority then r :: x :: xs else x :: insertByPriority r xs

/-- Modelled from the spec: the rule set in ascending priority order, ties in
declaration order (section 4.2, step 1; missing `./services/aiService`). -/
def sortByPriority : List AdvisoryRule → List AdvisoryRule
  | [] => []
  | r :: rs => insertByPriority r (sortByPriority rs)

/-- Modelled from the spec: section 4.2, step 2 (missing `./services/aiService`):
a rule whose predicate holds sets each slot that is still unset and for which
it has a message. -/
def applyRule (o : WeatherObservation) (acc : AdvisoryResult) (r : AdvisoryRule) : AdvisoryResult :=
  if r.predicate o then
    { planting := match acc.planting with
        | some p => some p
        | none => r.plantingMessage,
      pesticide := match acc.pesticide with
        | some p => some p
        | none => r.pesticideMessage }
  else acc

/-- Modelled from the spec: the loop of section 4.2, steps 2 and 3 (missing
`./services/aiService`), over rules already in evaluation order; it stops once
both slots are filled. -/
def evaluateFrom (o : WeatherObservation) : List AdvisoryRule → AdvisoryResult → AdvisoryResult
  | [], acc => acc
  | r :: rs, acc =>
    if acc.planting.isSome && acc.pesticide.isSome then acc
    else evaluateFrom o rs (applyRule o acc r)

/-- Modelled from the spec: `evaluate` of section 4.2, the contract of the
missing `getPretrainedPlantingAdvice`, over the rule set `rules` in declaration
order. -/
def evaluate (rules : List AdvisoryRule) (o : WeatherObservation) : AdvisoryResult :=
  evaluateFrom o (sortByPriority rules) { planting := none, pesticide := none }

/-- A rule contributes to a slot on `o` when its predicate holds on `o` and its
message for the slot is present. -/
def contributes (slot : AdvisoryRule → Option String) (o : WeatherObservation)
    (r : AdvisoryRule) : Bool :=
  r.predicate o && (slot r).isSome

/-- The declarative reading of "first contributing rule": over the declaration
order, the head wins against the winner of the tail unless its priority is
strictly higher. -/
def firstByPriority (c : AdvisoryRule → Bool) : List AdvisoryRule → Option AdvisoryRule
  | [] => none
  | x :: xs =>
    if c x then
      match firstByPriority c xs with
      | none => some x
      | some y => if x.priority ≤ y.priority then some x else some y
    else firstByPriority c xs

/-! ## Sample inputs -/

/-- A complete provider response. -/
def sampleWeather : Weather :=
  { name := some "Testville", main := some { temp := some 25, humidity := some 60 },
    weather := some [{ description := some "clear sky" }] }

/-- A provider response without the humidity field. -/
def weatherNoHumidity : Weather :=
  { name := some "Testville", main := some { temp := some 31, humidity := none },
    weather := some [{ description := some "light rain" }] }

/-- A provider response that is complete except for its top-level name. -/
def weatherNoName : Weather :=
  { name := none, main := some { temp := some 25, humidity := some 60 },
    weather := some [{ description := some "clear sky" }] }

/-- A provider response without its `main` sub-record. -/
def weatherNoMain : Weather :=
  { name := some "Testville", main := none,
    weather := some [{ description := some "clear sky" }] }

/-- An advisory with a planting message only. -/
def sampleAdvice : Advice := { planting := some "Ideal for sowing maize", pesticide := none }

/-- The advisory with both slots absent. -/
def noAdvice : Advice := { planting := none, pesticide := none }

/-- A position. -/
def sampleCoords : Coords := { latitude := 12, longitude := 77 }

/-- Collaborators under a legacy root that grant the permission, report
`sampleCoords`, answer both lookups with `w` and compute the advice with
`advise`. -/
def envReturning (w : Weather) (advise : Weather → Except JSError Advice) : Env :=
  { legacyRoot := true,
    apiKey := "key",
    requestForegroundPermissionsAsync := .ok "granted",
    getCurrentPositionAsync := .ok sampleCoords,
    getWeather := fun _ _ _ => .ok w,
    getWeatherByCity := fun _ _ => .ok w,
    getPretrainedPlantingAdvice := advise }

/-- Collaborators under a legacy root whose permission request answers `status`
and whose lookups fail. -/
def envFailing (status : String) : Env :=
  { legacyRoot := true,
    apiKey := "key",
    requestForegroundPermissionsAsync := .ok status,
    getCurrentPositionAsync := .ok sampleCoords,
    getWeather := fun _ _ _ => .error "Network request failed",
    getWeatherByCity := fun _ _ => .error "Network request failed",
    getPretrainedPlantingAdvice := fun _ => .ok sampleAdvice }

/-- A state in which the user has typed `text` into the city input after an
earlier failure. -/
def stateWithCity (text : String) : AppState :=
  { initialState with city := text, errorMessage := "City not found or weather data unavailable" }

/-- The observation of the specification's first scenario. -/
def sampleObservation : WeatherObservation :=
  { locationName := "Testville", temperatureCelsius := 25, humidityPercent := 60,
    conditionDescription := "clear sky" }

/-- A rule of priority 1 with a planting message, for temperatures from 20 to 30. -/
def ruleWarm : AdvisoryRule :=
  { predicate := fun o => decide (20 ≤ o.temperatureCelsius ∧ o.temperatureCelsius ≤ 30),
    plantingMessage := some "A", pesticideMessage := none, priority := 1 }

/-- A rule of priority 2 with both messages, for a humidity of at least 50. -/
def ruleHumid : AdvisoryRule :=
  { predicate := fun o => decide (50 ≤ o.humidityPercent),
    plantingMessage := some "B", pesticideMessage := some "P", priority := 2 }

/-- A rule of priority 1 with a planting message, declared after `ruleWarm`. -/
def ruleLate : AdvisoryRule :=
  { predicate := fun _ => true,
    plantingMessage := some "C", pesticideMessage := none, priority := 1 }

/-- An advisory step that rejects an incomplete observation and answers
`sampleAdvice` otherwise. -/
def adviseComplete (w : Weather) : Except JSError Advice :=
  if w.isIncomplete then .error "IncompleteObservation" else .ok sampleAdvice

/-- An advisory whose planting slot holds the empty string. -/
def emptyPlantingAdvice : Advice := { planting := some "", pesticide := some "Spray neem oil" }

/-! ## When a setter throws -/

section Setters

theorem renderWeatherBlock_ok (title : String) (w : Weather) (advice : Option Advice)
    (m : Main) (c : Condition) (cs : List Condition)
    (hm : w.main = some m) (hw : w.weather = some (c :: cs)) :
    renderWeatherBlock title w advice = .ok (.view .card
      [ .text (some .sectionTitle) [.str title],
        .text none [.str "📍 Location: ", strChild w.name],
        .text none [.str "🌡️ Temperature: ", numChild m.temp, .str "°C"],
        .text none [.str "💧 Humidity: ", numChild m.humidity, .str "%"],
        .text none [.str "🌤️ Condition: ", strChild c.description],
        adviceSlot "🌱 Planting Advice" (advice.bind fun a => a.planting),
        adviceSlot "🧪 Pesticide Control" (advice.bind fun a => a.pesticide) ]) := by
  simp [renderWeatherBlock, deref, hm, hw, bind, Except.bind, pure, Except.pure]

theorem renderWeatherBlock_error (title : String) (w : Weather) (advice : Option Advice)
    (h : w.canRender = false) : renderWeatherBlock title w advice = .error "TypeError" := by
  cases hm : w.main with
  | none => simp [renderWeatherBlock, deref, hm, bind, Except.bind]
  | some m =>
    cases hw : w.weather with
    | none => simp [renderWeatherBlock, deref, hm, hw, bind, Except.bind]
    | some l =>
      cases l with
      | nil => simp [renderWeatherBlock, deref, hm, hw, bind, Except.bind]
      | cons c cs => simp [Weather.canRender, hm, hw] at h

theorem renderWeatherBlock_isOk (title : String) (w : Weather) (advice : Option Advice)
    (h : w.canRender = true) : ∃ out, renderWeatherBlock title w advice = .ok out := by
  cases hm : w.main with
  | none => simp [Weather.canRender, hm] at h
  | some m =>
    cases hw : w.weather with
    | none => simp [Weather.canRender, hm, hw] at h
    | some l =>
      cases l with
      | nil => simp [Weather.canRender, hm, hw] at h
      | cons c cs =>
        exact ⟨_, renderWeatherBlock_ok title w advice m c cs hm hw⟩

theorem renderApp_error (s : AppState) (h : s.canRender = false) :
    renderApp s = .error "TypeError" := by
  unfold renderApp currentLocationBlock cityBlock
  cases hc : s.currentWeather with
  | none =>
    cases hy : s.cityWeather with
    | none => simp [AppState.canRender, hc, hy] at h
    | some w =>
      have hw : w.canRender = false := by simpa [AppState.canRender, hc, hy] using h
      simp [renderWeatherBlock_error _ w _ hw, bind, Except.bind]
  | some v =>
    cases hv : v.canRender
    · simp [renderWeatherBlock_error _ v _ hv, bind, Except.bind]
    · obtain ⟨out, ho⟩ := renderWeatherBlock_isOk "📍 Current Location" v s.locationAdvice hv
      cases hy : s.cityWeather with
      | none => simp [AppState.canRender, hc, hy, hv] at h
      | some w =>
        have hw : w.canRender = false := by simpa [AppState.canRender, hc, hy, hv] using h
        simp [ho, renderWeatherBlock_error _ w _ hw, bind, Except.bind]

theorem renderApp_isOk (s : AppState) (h : s.canRender = true) :
    ∃ v, renderApp s = .ok v := by
  unfold renderApp currentLocationBlock cityBlock
  simp only [AppState.canRender, Bool.and_eq_true] at h
  cases hc : s.currentWeather with
  | none =>
    cases hy : s.cityWeather with
    | none => exact ⟨_, rfl⟩
    | some w =>
      obtain ⟨out, ho⟩ := renderWeatherBlock_isOk (cityTitle w) w s.cityAdvice (by simpa [hy] using h.2)
      exact ⟨(.nothing, out), by simp [ho, bind, Except.bind, pure, Except.pure]⟩
  | some v =>
    obtain ⟨o1, h1⟩ := renderWeatherBlock_isOk "📍 Current Location" v s.locationAdvice
      (by simpa [hc] using h.1)
    cases hy : s.cityWeather with
    | none => exact ⟨(o1, .nothing), by simp [h1, bind, Except.bind, pure, Except.pure]⟩
    | some w =>
      obtain ⟨out, ho⟩ := renderWeatherBlock_isOk (cityTitle w) w s.cityAdvice (by simpa [hy] using h.2)
      exact ⟨(o1, out), by simp [h1, ho, bind, Except.bind, pure, Except.pure]⟩

/-- The setter in closed form: it throws exactly when it re-renders at once, the
state before it renders and the state after it does not. -/
theorem setState_run (rerender : Bool) (f : AppState → AppState) (r : Run) :
    Handler.setState rerender f r =
      if rerender = true ∧ r.state.canRender = true ∧ (f r.state).canRender = false then
        (.error "TypeError", { r with state := f r.state })
      else (.ok (), { r with state := f r.state }) := by
  unfold Handler.setState
  cases rerender
  · simp
  · cases h1 : r.state.canRender
    · simp [renderApp_error _ h1]
    · obtain ⟨v, hv⟩ := renderApp_isOk _ h1
      cases h2 : (f r.state).canRender
      · simp [hv, renderApp_error _ h2]
      · obtain ⟨v2, hv2⟩ := renderApp_isOk _ h2
        simp [hv, hv2]

/-- A setter that leaves both weather cells alone never throws. -/
theorem setState_keeps_weather (rerender : Bool) (f : AppState → AppState)
    (h : ∀ s, (f s).currentWeather = s.currentWeather ∧ (f s).cityWeather = s.cityWeather) :
    Handler.setState rerender f = fun r => (.ok (), { r with state := f r.state }) := by
  funext r
  rw [setState_run]
  have : (f r.state).canRender = r.state.canRender := by
    simp [AppState.canRender, (h r.state).1, (h r.state).2]
  rw [this]
  split
  · rename_i hc
    rw [hc.2.1] at hc
    exact absurd hc.2.2 (by simp)
  · rfl

theorem setLoading_eq (env : Env) (t : Timing) (b : Bool) :
    setLoading env t b = fun r => (.ok (), { r with state := { r.state with loading := b } }) :=
  setState_keeps_weather _ _ fun _ => ⟨rfl, rfl⟩

theorem setErrorMessage_eq (env : Env) (t : Timing) (m : String) :
    setErrorMessage env t m =
      fun r => (.ok (), { r with state := { r.state with errorMessage := m } }) :=
  setState_keeps_weather _ _ fun _ => ⟨rfl, rfl⟩

theorem setLocationAdvice_eq (env : Env) (t : Timing) (a : Advice) :
    setLocationAdvice env t a =
      fun r => (.ok (), { r with state := { r.state with locationAdvice := some a } }) :=
  setState_keeps_weather _ _ fun _ => ⟨rfl, rfl⟩

theorem setCityAdvice_eq (env : Env) (t : Timing) (a : Advice) :
    setCityAdvice env t a =
      fun r => (.ok (), { r with state := { r.state with cityAdvice := some a } }) :=
  setState_keeps_weather _ _ fun _ => ⟨rfl, rfl⟩

theorem setCity_eq (text : String) :
    setCity text = fun r => (.ok (), { r with state := { r.state with city := text } }) :=
  setState_keeps_weather _ _ fun _ => ⟨rfl, rfl⟩

/-- Storing a record in the city block throws exactly under a legacy root, on a
mounted component, for a record the block cannot render. -/
theorem setCityWeather_eq (env : Env) (w : Weather) (r : Run) :
    setCityWeather env .afterAwait w r =
      if env.legacyRoot = true ∧ r.state.canRender = true ∧ w.canRender = false then
        (.error "TypeError", { r with state := { r.state with cityWeather := some w } })
      else (.ok (), { r with state := { r.state with cityWeather := some w } }) := by
  unfold setCityWeather
  rw [setState_run]
  simp only [rerendersAtOnce]
  by_cases hl : env.legacyRoot = true
  · by_cases hs : r.state.canRender = true
    · have hcur : (match r.state.currentWeather with
          | none => true
          | some v => v.canRender) = true := by
        simp only [AppState.canRender, Bool.and_eq_true] at hs
        exact hs.1
      simp [hl, hs, AppState.canRender, hcur]
    · simp [hl, hs]
  · simp [hl]

/-- Storing a record in the current-location block throws exactly under a legacy
root, on a mounted component, for a record the block cannot render. -/
theorem setCurrentWeather_eq (env : Env) (w : Weather) (r : Run) :
    setCurrentWeather env .afterAwait w r =
      if env.legacyRoot = true ∧ r.state.canRender = true ∧ w.canRender = false then
        (.error "TypeError", { r with state := { r.state with currentWeather := some w } })
      else (.ok (), { r with state := { r.state with currentWeather := some w } }) := by
  unfold setCurrentWeather
  rw [setState_run]
  simp only [rerendersAtOnce]
  by_cases hl : env.legacyRoot = true
  · by_cases hs : r.state.canRender = true
    · have hcity : (match r.state.cityWeather with
          | none => true
          | some v => v.canRender) = true := by
        simp only [AppState.canRender, Bool.and_eq_true] at hs
        exact hs.2
      simp [hl, hs, AppState.canRender, hcity]
    · simp [hl, hs]
  · simp [hl]

end Setters

/-! ## The outcome of each handler, path by path -/

section HandlerPaths
variable (env : Env) (s : AppState)

theorem city_empty (h : s.city = "") :
    runHandler (fetchWeatherForCity env) s = (.ok (), { state := s, trace := [] }) := by
  simp [runHandler, fetchWeatherForCity, bind, Handler.andThen, Handler.read, Handler.ret, h]

theorem city_lookup_fails (h : s.city ≠ "") (e : JSError)
    (hw : env.getWeatherByCity s.city env.apiKey = .error e) :
    runHandler (fetchWeatherForCity env) s =
      (.ok (), { state := { s with loading := false,
                                   errorMessage := "City not found or weather data unavailable" },
                 trace := [.getWeatherByCity s.city env.apiKey] }) := by
  simp [runHandler, fetchWeatherForCity, bind, Handler.andThen, Handler.read, Handler.tryFinally,
    Handler.tryCatch, setLoading_eq, setErrorMessage_eq, Handler.call, h, hw]

/-- The record is stored and the render it triggers throws: the advisory step is
never reached. -/
theorem city_store_throws (h : s.city ≠ "") (w : Weather)
    (hw : env.getWeatherByCity s.city env.apiKey = .ok w)
    (hl : env.legacyRoot = true) (hs : s.canRender = true) (hr : w.canRender = false) :
    runHandler (fetchWeatherForCity env) s =
      (.ok (), { state := { s with cityWeather := some w, loading := false,
                                   errorMessage := "City not found or weather data unavailable" },
                 trace := [.getWeatherByCity s.city env.apiKey] }) := by
  have hs' : ∀ b m, ({ s with loading := b, errorMessage := m } : AppState).canRender = true :=
    fun _ _ => hs
  simp [runHandler, fetchWeatherForCity, bind, Handler.andThen, Handler.read, Handler.tryFinally,
    Handler.tryCatch, setLoading_eq, setErrorMessage_eq, setCityWeather_eq, Handler.call, h, hw,
    hl, hs', hr]

theorem city_advice_fails (h : s.city ≠ "") (w : Weather) (e : JSError)
    (hw : env.getWeatherByCity s.city env.apiKey = .ok w)
    (hT : ¬ (env.legacyRoot = true ∧ s.canRender = true ∧ w.canRender = false))
    (ha : env.getPretrainedPlantingAdvice w = .error e) :
    runHandler (fetchWeatherForCity env) s =
      (.ok (), { state := { s with cityWeather := some w, loading := false,
                                   errorMessage := "City not found or weather data unavailable" },
                 trace := [.getWeatherByCity s.city env.apiKey, .getPretrainedPlantingAdvice w] }) := by
  have hT' : ∀ b m, ¬ (env.legacyRoot = true ∧
      ({ s with loading := b, errorMessage := m } : AppState).canRender = true ∧
      w.canRender = false) := fun _ _ => hT
  simp [runHandler, fetchWeatherForCity, bind, Handler.andThen, Handler.read, Handler.tryFinally,
    Handler.tryCatch, setLoading_eq, setErrorMessage_eq, setCityWeather_eq, Handler.call, h, hw,
    ha, if_neg (hT' _ _)]

theorem city_succeeds (h : s.city ≠ "") (w : Weather) (a : Advice)
    (hw : env.getWeatherByCity s.city env.apiKey = .ok w)
    (hT : ¬ (env.legacyRoot = true ∧ s.canRender = true ∧ w.canRender = false))
    (ha : env.getPretrainedPlantingAdvice w = .ok a) :
    runHandler (fetchWeatherForCity env) s =
      (.ok (), { state := { s with cityWeather := some w, cityAdvice := some a, loading := false,
                                   errorMessage := "" },
                 trace := [.getWeatherByCity s.city env.apiKey, .getPretrainedPlantingAdvice w] }) := by
  have hT' : ∀ b m, ¬ (env.legacyRoot = true ∧
      ({ s with loading := b, errorMessage := m } : AppState).canRender = true ∧
      w.canRender = false) := fun _ _ => hT
  simp [runHandler, fetchWeatherForCity, bind, Handler.andThen, Handler.read, Handler.tryFinally,
    Handler.tryCatch, setLoading_eq, setErrorMessage_eq, setCityWeather_eq, setCityAdvice_eq,
    Handler.call, h, hw, ha, if_neg (hT' _ _)]

theorem location_permission_fails (e : JSError)
    (hp : env.requestForegroundPermissionsAsync = .error e) :
    runHandler (fetchCurrentLocationWeather env) s =
      (.ok (), { state := { s with loading := false,
                                   errorMessage := "Failed to get weather for current location" },
                 trace := [.requestForegroundPermissionsAsync] }) := by
  simp [runHandler, fetchCurrentLocationWeather, bind, Handler.andThen, Handler.tryFinally,
    Handler.tryCatch, setLoading_eq, setErrorMessage_eq, Handler.call, hp]

theorem location_denied (status : String)
    (hp : env.requestForegroundPermissionsAsync = .ok status) (hs : status ≠ "granted") :
    runHandler (fetchCurrentLocationWeather env) s =
      (.ok (), { state := { s with loading := false,
                                   errorMessage := "Permission to access location was denied" },
                 trace := [.requestForegroundPermissionsAsync] }) := by
  simp [runHandler, fetchCurrentLocationWeather, bind, Handler.andThen, Handler.tryFinally,
    Handler.tryCatch, setLoading_eq, setErrorMessage_eq, Handler.call, hp, hs]

theorem location_position_fails (e : JSError)
    (hp : env.requestForegroundPermissionsAsync = .ok "granted")
    (hl : env.getCurrentPositionAsync = .error e) :
    runHandler (fetchCurrentLocationWeather env) s =
      (.ok (), { state := { s with loading := false,
                                   errorMessage := "Failed to get weather for current location" },
                 trace := [.requestForegroundPermissionsAsync, .getCurrentPositionAsync] }) := by
  simp [runHandler, fetchCurrentLocationWeather, bind, Handler.andThen, Handler.tryFinally,
    Handler.tryCatch, setLoading_eq, setErrorMessage_eq, Handler.call, hp, hl]

theorem location_lookup_fails (c : Coords) (e : JSError)
    (hp : env.requestForegroundPermissionsAsync = .ok "granted")
    (hl : env.getCurrentPositionAsync = .ok c)
    (hw : env.getWeather c.latitude c.longitude env.apiKey = .error e) :
    runHandler (fetchCurrentLocationWeather env) s =
      (.ok (), { state := { s with loading := false,
                                   errorMessage := "Failed to get weather for current location" },
                 trace := [.requestForegroundPermissionsAsync, .getCurrentPositionAsync,
                           .getWeather c.latitude c.longitude env.apiKey] }) := by
  simp [runHandler, fetchCurrentLocationWeather, bind, Handler.andThen, Handler.tryFinally,
    Handler.tryCatch, setLoading_eq, setErrorMessage_eq, Handler.call, hp, hl, hw]

/-- The record is stored and the render it triggers throws: the advisory step is
never reached. -/
theorem location_store_throws (c : Coords) (w : Weather)
    (hp : env.requestForegroundPermissionsAsync = .ok "granted")
    (hl : env.getCurrentPositionAsync = .ok c)
    (hw : env.getWeather c.latitude c.longitude env.apiKey = .ok w)
    (hroot : env.legacyRoot = true) (hs : s.canRender = true) (hr : w.canRender = false) :
    runHandler (fetchCurrentLocationWeather env) s =
      (.ok (), { state := { s with currentWeather := some w, loading := false,
                                   errorMessage := "Failed to get weather for current location" },
                 trace := [.requestForegroundPermissionsAsync, .getCurrentPositionAsync,
                           .getWeather c.latitude c.longitude env.apiKey] }) := by
  have hs' : ∀ b m, ({ s with loading := b, errorMessage := m } : AppState).canRender = true :=
    fun _ _ => hs
  simp [runHandler, fetchCurrentLocationWeather, bind, Handler.andThen, Handler.tryFinally,
    Handler.tryCatch, setLoading_eq, setErrorMessage_eq, setCurrentWeather_eq, Handler.call,
    hp, hl, hw, hroot, hs', hr]

theorem location_advice_fails (c : Coords) (w : Weather) (e : JSError)
    (hp : env.requestForegroundPermissionsAsync = .ok "granted")
    (hl : env.getCurrentPositionAsync = .ok c)
    (hw : env.getWeather c.latitude c.longitude env.apiKey = .ok w)
    (hT : ¬ (env.legacyRoot = true ∧ s.canRender = true ∧ w.canRender = false))
    (ha : env.getPretrainedPlantingAdvice w = .error e) :
    runHandler (fetchCurrentLocationWeather env) s =
      (.ok (), { state := { s with currentWeather := some w, loading := false,
                                   errorMessage := "Failed to get weather for current location" },
                 trace := [.requestForegroundPermissionsAsync, .getCurrentPositionAsync,
                           .getWeather c.latitude c.longitude env.apiKey,
                           .getPretrainedPlantingAdvice w] }) := by
  have hT' : ∀ b m, ¬ (env.legacyRoot = true ∧
      ({ s with loading := b, errorMessage := m } : AppState).canRender = true ∧
      w.canRender = false) := fun _ _ => hT
  simp [runHandler, fetchCurrentLocationWeather, bind, Handler.andThen, Handler.tryFinally,
    Handler.tryCatch, setLoading_eq, setErrorMessage_eq, setCurrentWeather_eq, Handler.call,
    hp, hl, hw, ha, if_neg (hT' _ _)]

theorem location_succeeds (c : Coords) (w : Weather) (a : Advice)
    (hp : env.requestForegroundPermissionsAsync = .ok "granted")
    (hl : env.getCurrentPositionAsync = .ok c)
    (hw : env.getWeather c.latitude c.longitude env.apiKey = .ok w)
    (hT : ¬ (env.legacyRoot = true ∧ s.canRender = true ∧ w.canRender = false))
    (ha : env.getPretrainedPlantingAdvice w = .ok a) :
    runHandler (fetchCurrentLocationWeather env) s =
      (.ok (), { state := { s with currentWeather := some w, locationAdvice := some a,
                                   loading := false, errorMessage := "" },
                 trace := [.requestForegroundPermissionsAsync, .getCurrentPositionAsync,
                           .getWeather c.latitude c.longitude env.apiKey,
                           .getPretrainedPlantingAdvice w] }) := by
  have hT' : ∀ b m, ¬ (env.legacyRoot = true ∧
      ({ s with loading := b, errorMessage := m } : AppState).canRender = true ∧
      w.canRender = false) := fun _ _ => hT
  simp [runHandler, fetchCurrentLocationWeather, bind, Handler.andThen, Handler.tryFinally,
    Handler.tryCatch, setLoading_eq, setErrorMessage_eq, setCurrentWeather_eq,
    setLocationAdvice_eq, Handler.call, hp, hl, hw, ha, if_neg (hT' _ _)]

/-- A record the block can render, or a root that defers the render, rules the
throw out. -/
theorem no_throw_of_canRender (w : Weather)
    (h : env.legacyRoot = true → w.canRender = true) :
    ¬ (env.legacyRoot = true ∧ s.canRender = true ∧ w.canRender = false) := by
  rintro ⟨hl, _, hr⟩
  rw [h hl] at hr
  cases hr

end HandlerPaths

/-! ## The evaluation order and the first contributing rule -/

section Engine

theorem sorted_insertByPriority (r : AdvisoryRule) (xs : List AdvisoryRule)
    (h : xs.Pairwise fun a b => a.priority ≤ b.priority) :
    (insertByPriority r xs).Pairwise fun a b => a.priority ≤ b.priority := by
  induction xs with
  | nil => simp [insertByPriority]
  | cons x xs ih =>
    rw [List.pairwise_cons] at h
    unfold insertByPriority
    split
    · rename_i hle
      refine List.pairwise_cons.2 ⟨?_, List.pairwise_cons.2 h⟩
      intro b hb
      rcases List.mem_cons.1 hb with rfl | hb
      · exact hle
      · exact le_trans hle (h.1 b hb)
    · rename_i hlt
      refine List.pairwise_cons.2 ⟨?_, ih h.2⟩
      intro b hb
      have : b = r ∨ b ∈ xs := by
        clear ih h
        induction xs with
        | nil => simpa [insertByPriority] using hb
        | cons y ys ihy =>
          unfold insertByPriority at hb
          split at hb
          · simpa using hb
          · rcases List.mem_cons.1 hb with rfl | hb
            · exact Or.inr (List.mem_cons_self _ _)
            · rcases ihy hb with h1 | h1
              · exact Or.inl h1
              · exact Or.inr (List.mem_cons_of_mem _ h1)
      rcases this with rfl | hb
      · exact le_of_lt (lt_of_not_le hlt)
      · exact h.1 b hb

theorem sorted_sortByPriority (rules : List AdvisoryRule) :
    (sortByPriority rules).Pairwise fun a b => a.priority ≤ b.priority := by
  induction rules with
  | nil => simp [sortByPriority]
  | cons r rs ih => exact sorted_insertByPriority r _ ih

theorem find_insertByPriority (c : AdvisoryRule → Bool) (r : AdvisoryRule) (xs : List AdvisoryRule)
    (h : xs.Pairwise fun a b => a.priority ≤ b.priority) :
    (insertByPriority r xs).find? c =
      if c r then
        match xs.find? c with
        | none => some r
        | some y => if r.priority ≤ y.priority then some r else some y
      else xs.find? c := by
  induction xs with
  | nil => cases hc : c r <;> simp [insertByPriority, List.find?, hc]
  | cons x xs ih =>
    rw [List.pairwise_cons] at h
    have ih := ih h.2
    unfold insertByPriority
    by_cases hle : r.priority ≤ x.priority
    · rw [if_pos hle]
      cases hc : c r
      · simp [List.find?, hc]
      · cases hx : c x
        · simp only [List.find?, hc, hx, if_true]
          cases hf : xs.find? c with
          | none => rfl
          | some y =>
            have hy : y ∈ xs := List.mem_of_find?_eq_some hf
            simp [le_trans hle (h.1 y hy)]
        · simp [List.find?, hc, hx, hle]
    · rw [if_neg hle]
      cases hx : c x
      · simp only [List.find?, hx]
        exact ih
      · cases hc : c r <;> simp [List.find?, hx, hc, hle]

theorem find_sortByPriority (c : AdvisoryRule → Bool) (rules : List AdvisoryRule) :
    (sortByPriority rules).find? c = firstByPriority c rules := by
  induction rules with
  | nil => rfl
  | cons r rs ih =>
    simp only [sortByPriority, firstByPriority]
    rw [find_insertByPriority c r _ (sorted_sortByPriority rs), ih]

variable (o : WeatherObservation)

theorem planting_evaluateFrom (rs : List AdvisoryRule) (acc : AdvisoryResult) :
    (evaluateFrom o rs acc).planting =
      match acc.planting with
      | some p => some p
      | none => ((rs.find? (contributes (fun r => r.plantingMessage) o)).bind fun r => r.plantingMessage) := by
  induction rs generalizing acc with
  | nil => cases h : acc.planting <;> simp [evaluateFrom, h]
  | cons r rs ih =>
    unfold evaluateFrom
    split
    · rename_i hfull
      cases h : acc.planting with
      | none => simp [h] at hfull
      | some p => rfl
    · rw [ih]
      cases hp : r.predicate o <;> cases h : acc.planting <;>
        cases hm : r.plantingMessage <;>
        simp [applyRule, hp, h, hm, List.find?, contributes]

theorem pesticide_evaluateFrom (rs : List AdvisoryRule) (acc : AdvisoryResult) :
    (evaluateFrom o rs acc).pesticide =
      match acc.pesticide with
      | some p => some p
      | none => ((rs.find? (contributes (fun r => r.pesticideMessage) o)).bind fun r => r.pesticideMessage) := by
  induction rs generalizing acc with
  | nil => cases h : acc.pesticide <;> simp [evaluateFrom, h]
  | cons r rs ih =>
    unfold evaluateFrom
    split
    · rename_i hfull
      cases h : acc.pesticide with
      | none => simp [h] at hfull
      | some p => rfl
    · rw [ih]
      cases hp : r.predicate o <;> cases h : acc.pesticide <;>
        cases hm : r.pesticideMessage <;>
        simp [applyRule, hp, h, hm, List.find?, contributes]

theorem firstByPriority_mem (c : AdvisoryRule → Bool) (rs : List AdvisoryRule) (y : AdvisoryRule)
    (h : firstByPriority c rs = some y) : y ∈ rs ∧ c y = true := by
  induction rs with
  | nil => simp [firstByPriority] at h
  | cons x xs ih =>
    unfold firstByPriority at h
    cases hx : c x
    · simp only [hx] at h
      exact ⟨List.mem_cons_of_mem _ (ih h).1, (ih h).2⟩
    · simp only [hx, if_true] at h
      cases hf : firstByPriority c xs with
      | none =>
        rw [hf] at h
        cases h
        exact ⟨List.mem_cons_self _ _, hx⟩
      | some z =>
        rw [hf] at h
        simp only at h
        split at h
        · cases h
          exact ⟨List.mem_cons_self _ _, hx⟩
        · cases h
          exact ⟨List.mem_cons_of_mem _ (ih hf).1, (ih hf).2⟩

theorem firstByPriority_none (c : AdvisoryRule → Bool) (rs : List AdvisoryRule)
    (h : ∀ r ∈ rs, c r = false) : firstByPriority c rs = none := by
  induction rs with
  | nil => rfl
  | cons x xs ih =>
    unfold firstByPriority
    rw [h x (List.mem_cons_self _ _)]
    exact ih fun r hr => h r (List.mem_cons_of_mem _ hr)

theorem firstByPriority_split (c : AdvisoryRule → Bool) (pre post : List AdvisoryRule)
    (r : AdvisoryRule) (hr : c r = true)
    (hpre : ∀ x ∈ pre, c x = true → r.priority < x.priority)
    (hpost : ∀ x ∈ post, c x = true → r.priority ≤ x.priority) :
    firstByPriority c (pre ++ r :: post) = some r := by
  induction pre with
  | nil =>
    simp only [List.nil_append, firstByPriority, hr, if_true]
    cases hf : firstByPriority c post with
    | none => rfl
    | some y =>
      have hy := firstByPriority_mem c post y hf
      simp [hpost y hy.1 hy.2]
  | cons x xs ih =>
    have ih := ih fun y hy => hpre y (List.mem_cons_of_mem _ hy)
    simp only [List.cons_append, firstByPriority]
    cases hx : c x
    · simpa using ih
    · have := hpre x (List.mem_cons_self _ _) hx
      simp [ih, not_le.2 this]

end Engine

/-! ## The children of a rendered block -/

section Render

theorem adviceSlot_eq_block (heading heading' : String) (slot : Option String) (p : String) :
    adviceSlot heading slot = adviceBlock heading' p ↔
      heading = heading' ∧ slot = some p ∧ p ≠ "" := by
  cases slot with
  | none => simp [adviceSlot, adviceBlock]
  | some q =>
    by_cases hq : q = ""
    · subst hq
      simp [adviceSlot, adviceBlock]
      intro _ h
      exact h.symm
    · simp [adviceSlot, adviceBlock, hq]
      intro _ h
      exact h ▸ hq

theorem renderWeatherBlock_children (title : String) (w : Weather) (advice : Option Advice)
    (out : Node) (h : renderWeatherBlock title w advice = .ok out) :
    ∃ t l1 l2 l3 l4 : List Node, out = .view .card
      [ .text (some .sectionTitle) t, .text none l1, .text none l2, .text none l3, .text none l4,
        adviceSlot "🌱 Planting Advice" (advice.bind fun a => a.planting),
        adviceSlot "🧪 Pesticide Control" (advice.bind fun a => a.pesticide) ] := by
  cases hm : w.main with
  | none => simp [renderWeatherBlock, deref, hm, bind, Except.bind] at h
  | some m =>
    cases hw : w.weather with
    | none => simp [renderWeatherBlock, deref, hm, hw, bind, Except.bind] at h
    | some l =>
      cases l with
      | nil => simp [renderWeatherBlock, deref, hm, hw, bind, Except.bind] at h
      | cons c cs =>
        rw [renderWeatherBlock_ok title w advice m c cs hm hw] at h
        cases h
        exact ⟨_, _, _, _, _, rfl⟩

theorem block_mem_rendered (title : String) (w : Weather) (advice : Option Advice) (out : Node)
    (h : renderWeatherBlock title w advice = .ok out) (heading p : String) :
    adviceBlock heading p ∈ out.children ↔
      (heading = "🌱 Planting Advice" ∧ (advice.bind fun a => a.planting) = some p ∧ p ≠ "") ∨
      (heading = "🧪 Pesticide Control" ∧ (advice.bind fun a => a.pesticide) = some p ∧ p ≠ "") := by
  obtain ⟨t, l1, l2, l3, l4, rfl⟩ := renderWeatherBlock_children title w advice out h
  simp only [Node.children, List.mem_cons, List.mem_singleton, List.not_mem_nil, or_false]
  have ht : ∀ s cs, adviceBlock heading p ≠ Node.text s cs := by
    intro s cs
    simp [adviceBlock]
  simp only [ht, false_or]
  constructor
  · rintro (h1 | h1)
    · exact Or.inl (by
        have := (adviceSlot_eq_block _ heading _ p).1 h1.symm
        exact ⟨this.1.symm, this.2⟩)
    · exact Or.inr (by
        have := (adviceSlot_eq_block _ heading _ p).1 h1.symm
        exact ⟨this.1.symm, this.2⟩)
  · rintro (⟨h1, h2, h3⟩ | ⟨h1, h2, h3⟩)
    · exact Or.inl ((adviceSlot_eq_block _ heading _ p).2 ⟨h1.symm, h2, h3⟩).symm
    · exact Or.inr ((adviceSlot_eq_block _ heading _ p).2 ⟨h1.symm, h2, h3⟩).symm

end Render

/-! ## The handlers: success, failure, denial, empty city -/

/-- C1, as stated, fails: under a legacy root `getWeatherByCity` returns a record
without its `main` sub-record, on which `getPretrainedPlantingAdvice` would
succeed; storing the record throws inside the `try`, the advisory step is never
reached, and the handler ends with the city error message and no advice.  The
same holds for `fetchCurrentLocationWeather`. -/
theorem unrenderable_record_skips_advice :
    (envReturning weatherNoMain fun _ => .ok sampleAdvice).getWeatherByCity "Testville" "key" =
      .ok weatherNoMain ∧
    (envReturning weatherNoMain fun _ => .ok sampleAdvice).getPretrainedPlantingAdvice
      weatherNoMain = .ok sampleAdvice ∧
    (runHandler (fetchWeatherForCity (envReturning weatherNoMain fun _ => .ok sampleAdvice))
      (stateWithCity "Testville")).2.state.cityAdvice = none ∧
    (runHandler (fetchWeatherForCity (envReturning weatherNoMain fun _ => .ok sampleAdvice))
      (stateWithCity "Testville")).2.state.errorMessage =
      "City not found or weather data unavailable" ∧
    (runHandler (fetchWeatherForCity (envReturning weatherNoMain fun _ => .ok sampleAdvice))
      (stateWithCity "Testville")).2.trace = [.getWeatherByCity "Testville" "key"] ∧
    (runHandler (fetchCurrentLocationWeather (envReturning weatherNoMain fun _ => .ok sampleAdvice))
      initialState).2.state.locationAdvice = none ∧
    (runHandler (fetchCurrentLocationWeather (envReturning weatherNoMain fun _ => .ok sampleAdvice))
      initialState).2.state.errorMessage = "Failed to get weather for current location" := by
  rw [city_store_throws (envReturning weatherNoMain fun _ => .ok sampleAdvice)
    (stateWithCity "Testville") (by decide) weatherNoMain rfl rfl rfl rfl]
  rw [location_store_throws (envReturning weatherNoMain fun _ => .ok sampleAdvice) initialState
    sampleCoords weatherNoMain rfl rfl rfl rfl rfl rfl]
  exact ⟨rfl, rfl, rfl, rfl, rfl, rfl, rfl⟩

/-- C1, amended: for every weather record `w` the lookup returns and on which
`getPretrainedPlantingAdvice` succeeds with `a`, provided that under a legacy
root `w` has its `main` sub-record and a first condition entry, the handler
returns with that block's weather `w`, that block's advice `a`, `errorMessage`
empty and `loading` false; the only record the advice is computed from is `w`.
First conjunct: `fetchCurrentLocationWeather` with the permission granted;
second: `fetchWeatherForCity` with a non-empty city. -/
theorem fetch_success_pairs_weather_and_advice (env : Env) (s : AppState) (w : Weather)
    (a : Advice) (ha : env.getPretrainedPlantingAdvice w = .ok a)
    (hr : env.legacyRoot = true → w.canRender = true) :
    (∀ c : Coords, env.requestForegroundPermissionsAsync = .ok "granted" →
      env.getCurrentPositionAsync = .ok c →
      env.getWeather c.latitude c.longitude env.apiKey = .ok w →
        (runHandler (fetchCurrentLocationWeather env) s).1 = .ok () ∧
        (runHandler (fetchCurrentLocationWeather env) s).2.state.currentWeather = some w ∧
        (runHandler (fetchCurrentLocationWeather env) s).2.state.locationAdvice = some a ∧
        (runHandler (fetchCurrentLocationWeather env) s).2.state.errorMessage = "" ∧
        (runHandler (fetchCurrentLocationWeather env) s).2.state.loading = false ∧
        ∀ w', Effect.getPretrainedPlantingAdvice w' ∈
          (runHandler (fetchCurrentLocationWeather env) s).2.trace → w' = w) ∧
    (s.city ≠ "" → env.getWeatherByCity s.city env.apiKey = .ok w →
        (runHandler (fetchWeatherForCity env) s).1 = .ok () ∧
        (runHandler (fetchWeatherForCity env) s).2.state.cityWeather = some w ∧
        (runHandler (fetchWeatherForCity env) s).2.state.cityAdvice = some a ∧
        (runHandler (fetchWeatherForCity env) s).2.state.errorMessage = "" ∧
        (runHandler (fetchWeatherForCity env) s).2.state.loading = false ∧
        ∀ w', Effect.getPretrainedPlantingAdvice w' ∈
          (runHandler (fetchWeatherForCity env) s).2.trace → w' = w) := by
  have hT := no_throw_of_canRender env s w hr
  refine ⟨fun c hp hl hw => ?_, fun hc hw => ?_⟩
  · rw [location_succeeds env s c w a hp hl hw hT ha]
    simp
  · rw [city_succeeds env s hc w a hw hT ha]
    simp

/-- The amended C1 on sample collaborators under a legacy root: a granted
permission and a lookup answering `sampleWeather`, from a state that still
shows an old error. -/
theorem fetch_success_pairs_weather_and_advice_witness :
    ((runHandler (fetchCurrentLocationWeather (envReturning sampleWeather fun _ => .ok sampleAdvice))
        (stateWithCity "Testville")).2.state.currentWeather = some sampleWeather ∧
      (runHandler (fetchCurrentLocationWeather (envReturning sampleWeather fun _ => .ok sampleAdvice))
        (stateWithCity "Testville")).2.state.locationAdvice = some sampleAdvice) ∧
    ((runHandler (fetchWeatherForCity (envReturning sampleWeather fun _ => .ok sampleAdvice))
        (stateWithCity "Testville")).2.state.cityWeather = some sampleWeather ∧
      (runHandler (fetchWeatherForCity (envReturning sampleWeather fun _ => .ok sampleAdvice))
        (stateWithCity "Testville")).2.state.errorMessage = "") :=
  have h := fetch_success_pairs_weather_and_advice
    (envReturning sampleWeather fun _ => .ok sampleAdvice) (stateWithCity "Testville")
    sampleWeather sampleAdvice rfl (fun _ => rfl)
  have h1 := h.1 sampleCoords rfl rfl rfl
  have h2 := h.2 (by decide) rfl
  ⟨⟨h1.2.1, h1.2.2.1⟩, ⟨h2.2.1, h2.2.2.2.1⟩⟩

/-- C2: a failure inside a handler never escapes it.  In `fetchWeatherForCity`
with a non-empty city, if `getWeatherByCity` fails, or returns `w` and
`getPretrainedPlantingAdvice` fails on `w`, the handler returns normally with
the city error message and `loading` false.  In `fetchCurrentLocationWeather`
with the permission granted, if the position request fails, or `getWeather`
fails, or `getPretrainedPlantingAdvice` fails, the handler returns normally
with the current-location error message and `loading` false. -/
theorem fetch_failure_is_caught (env : Env) (s : AppState) :
    (s.city ≠ "" →
      ((∃ e, env.getWeatherByCity s.city env.apiKey = .error e) ∨
        ∃ w e, env.getWeatherByCity s.city env.apiKey = .ok w ∧
          env.getPretrainedPlantingAdvice w = .error e) →
        (runHandler (fetchWeatherForCity env) s).1 = .ok () ∧
        (runHandler (fetchWeatherForCity env) s).2.state.errorMessage =
          "City not found or weather data unavailable" ∧
        (runHandler (fetchWeatherForCity env) s).2.state.loading = false) ∧
    (env.requestForegroundPermissionsAsync = .ok "granted" →
      ((∃ e, env.getCurrentPositionAsync = .error e) ∨
        ∃ c, env.getCurrentPositionAsync = .ok c ∧
          ((∃ e, env.getWeather c.latitude c.longitude env.apiKey = .error e) ∨
            ∃ w e, env.getWeather c.latitude c.longitude env.apiKey = .ok w ∧
              env.getPretrainedPlantingAdvice w = .error e)) →
        (runHandler (fetchCurrentLocationWeather env) s).1 = .ok () ∧
        (runHandler (fetchCurrentLocationWeather env) s).2.state.errorMessage =
          "Failed to get weather for current location" ∧
        (runHandler (fetchCurrentLocationWeather env) s).2.state.loading = false) := by
  refine ⟨fun hc h => ?_, fun hp h => ?_⟩
  · rcases h with ⟨e, hw⟩ | ⟨w, e, hw, ha⟩
    · rw [city_lookup_fails env s hc e hw]
      simp
    · by_cases hT : env.legacyRoot = true ∧ s.canRender = true ∧ w.canRender = false
      · rw [city_store_throws env s hc w hw hT.1 hT.2.1 hT.2.2]
        simp
      · rw [city_advice_fails env s hc w e hw hT ha]
        simp
  · rcases h with ⟨e, hl⟩ | ⟨c, hl, ⟨e, hw⟩ | ⟨w, e, hw, ha⟩⟩
    · rw [location_position_fails env s e hp hl]
      simp
    · rw [location_lookup_fails env s c e hp hl hw]
      simp
    · by_cases hT : env.legacyRoot = true ∧ s.canRender = true ∧ w.canRender = false
      · rw [location_store_throws env s c w hp hl hw hT.1 hT.2.1 hT.2.2]
        simp
      · rw [location_advice_fails env s c w e hp hl hw hT ha]
        simp

/-- C2 on sample collaborators: a failing city lookup, and an advisory step that
fails on the record the current-location lookup returned. -/
theorem fetch_failure_is_caught_witness :
    ((runHandler (fetchWeatherForCity (envFailing "granted")) (stateWithCity "Atlantis")).1 = .ok () ∧
      (runHandler (fetchWeatherForCity (envFailing "granted")) (stateWithCity "Atlantis")).2.state.errorMessage =
        "City not found or weather data unavailable" ∧
      (runHandler (fetchWeatherForCity (envFailing "granted")) (stateWithCity "Atlantis")).2.state.loading = false) ∧
    ((runHandler (fetchCurrentLocationWeather
        (envReturning weatherNoHumidity fun _ => .error "IncompleteObservation")) initialState).1 = .ok () ∧
      (runHandler (fetchCurrentLocationWeather
        (envReturning weatherNoHumidity fun _ => .error "IncompleteObservation")) initialState).2.state.errorMessage =
        "Failed to get weather for current location" ∧
      (runHandler (fetchCurrentLocationWeather
        (envReturning weatherNoHumidity fun _ => .error "IncompleteObservation")) initialState).2.state.loading = false) :=
  ⟨(fetch_failure_is_caught (envFailing "granted") (stateWithCity "Atlantis")).1 (by decide)
      (Or.inl ⟨"Network request failed", rfl⟩),
    (fetch_failure_is_caught (envReturning weatherNoHumidity fun _ => .error "IncompleteObservation")
      initialState).2 rfl
      (Or.inr ⟨sampleCoords, rfl, Or.inr ⟨weatherNoHumidity, "IncompleteObservation", rfl, rfl⟩⟩)⟩

/-- C9: when the permission request answers a status other than `granted`,
`fetchCurrentLocationWeather` makes no call besides the permission request (no
position request, no weather lookup), and returns with the denial message,
`loading` false, and `currentWeather`, `locationAdvice`, `cityWeather`,
`cityAdvice` and `city` as they were. -/
theorem permission_denied_touches_no_weather (env : Env) (s : AppState) (status : String)
    (hp : env.requestForegroundPermissionsAsync = .ok status) (hs : status ≠ "granted") :
    (runHandler (fetchCurrentLocationWeather env) s).1 = .ok () ∧
    (runHandler (fetchCurrentLocationWeather env) s).2.trace = [.requestForegroundPermissionsAsync] ∧
    (runHandler (fetchCurrentLocationWeather env) s).2.state.errorMessage =
      "Permission to access location was denied" ∧
    (runHandler (fetchCurrentLocationWeather env) s).2.state.loading = false ∧
    (runHandler (fetchCurrentLocationWeather env) s).2.state.currentWeather = s.currentWeather ∧
    (runHandler (fetchCurrentLocationWeather env) s).2.state.locationAdvice = s.locationAdvice ∧
    (runHandler (fetchCurrentLocationWeather env) s).2.state.cityWeather = s.cityWeather ∧
    (runHandler (fetchCurrentLocationWeather env) s).2.state.cityAdvice = s.cityAdvice ∧
    (runHandler (fetchCurrentLocationWeather env) s).2.state.city = s.city := by
  rw [location_denied env s status hp hs]
  simp

/-- C9 with the status `denied`, from a state with a typed city and an old error. -/
theorem permission_denied_touches_no_weather_witness :
    (runHandler (fetchCurrentLocationWeather (envFailing "denied")) (stateWithCity "Testville")).2.trace =
      [.requestForegroundPermissionsAsync] ∧
    (runHandler (fetchCurrentLocationWeather (envFailing "denied")) (stateWithCity "Testville")).2.state.errorMessage =
      "Permission to access location was denied" :=
  have h := permission_denied_touches_no_weather (envFailing "denied") (stateWithCity "Testville")
    "denied" rfl (by decide)
  ⟨h.2.1, h.2.2.1⟩

/-- C10: with an empty city `fetchWeatherForCity` makes no call and leaves the
whole state as it was (it neither sets `loading` nor clears the error message);
with a non-empty city, a whitespace-only one included, its first call is
`getWeatherByCity` with exactly that string, and it looks up no other city. -/
theorem empty_city_is_a_no_op (env : Env) (s : AppState) :
    (s.city = "" →
      (runHandler (fetchWeatherForCity env) s).1 = .ok () ∧
      (runHandler (fetchWeatherForCity env) s).2.trace = [] ∧
      (runHandler (fetchWeatherForCity env) s).2.state = s) ∧
    (s.city ≠ "" →
      (runHandler (fetchWeatherForCity env) s).2.trace.head? =
        some (.getWeatherByCity s.city env.apiKey) ∧
      ∀ c k, Effect.getWeatherByCity c k ∈ (runHandler (fetchWeatherForCity env) s).2.trace →
        c = s.city) := by
  refine ⟨fun hc => ?_, fun hc => ?_⟩
  · rw [city_empty env s hc]
    simp
  · cases hw : env.getWeatherByCity s.city env.apiKey with
    | error e =>
      rw [city_lookup_fails env s hc e hw]
      simp
    | ok w =>
      by_cases hT : env.legacyRoot = true ∧ s.canRender = true ∧ w.canRender = false
      · rw [city_store_throws env s hc w hw hT.1 hT.2.1 hT.2.2]
        simp
      · cases ha : env.getPretrainedPlantingAdvice w with
        | error e =>
          rw [city_advice_fails env s hc w e hw hT ha]
          simp
        | ok a =>
          rw [city_succeeds env s hc w a hw hT ha]
          simp

/-- C10 on an empty city with an old error message showing, and on a city made
of one blank. -/
theorem empty_city_is_a_no_op_witness :
    (runHandler (fetchWeatherForCity (envFailing "granted")) (stateWithCity "")).2.state =
      stateWithCity "" ∧
    (runHandler (fetchWeatherForCity (envFailing "granted")) (stateWithCity " ")).2.trace.head? =
      some (.getWeatherByCity " " "key") :=
  ⟨((empty_city_is_a_no_op (envFailing "granted") (stateWithCity "")).1 rfl).2.2,
    ((empty_city_is_a_no_op (envFailing "granted") (stateWithCity " ")).2 (by decide)).1⟩

/-! ## The rule engine: first match per slot -/

/-- C3: first match per slot, in priority order.  The planting field of
`evaluate rules o` is absent when no rule whose predicate holds on `o` has a
planting message; and it is the planting message of `r` whenever `r` is the
first contributing rule in ascending priority order with ties broken by
declaration order, that is, `rules = pre ++ r :: post` where every contributing
rule declared before `r` has a strictly higher priority value and every one
declared after `r` has a priority value at least that of `r`.  The pesticide
field is determined the same way from the pesticide messages alone.  In
particular, if `R1` (priority 1, planting message "A") and `R2` (priority 2,
planting message "B") both match `o`, the planting field is "A", in either
declaration order. -/
theorem evaluate_first_match_per_slot (rules : List AdvisoryRule) (o : WeatherObservation) :
    ((∀ r ∈ rules, r.predicate o = true → r.plantingMessage = none) →
      (evaluate rules o).planting = none) ∧
    (∀ pre r post, rules = pre ++ r :: post →
      r.predicate o = true → r.plantingMessage.isSome = true →
      (∀ x ∈ pre, x.predicate o = true → x.plantingMessage.isSome = true →
        r.priority < x.priority) →
      (∀ x ∈ post, x.predicate o = true → x.plantingMessage.isSome = true →
        r.priority ≤ x.priority) →
      (evaluate rules o).planting = r.plantingMessage) ∧
    ((∀ r ∈ rules, r.predicate o = true → r.pesticideMessage = none) →
      (evaluate rules o).pesticide = none) ∧
    (∀ pre r post, rules = pre ++ r :: post →
      r.predicate o = true → r.pesticideMessage.isSome = true →
      (∀ x ∈ pre, x.predicate o = true → x.pesticideMessage.isSome = true →
        r.priority < x.priority) →
      (∀ x ∈ post, x.predicate o = true → x.pesticideMessage.isSome = true →
        r.priority ≤ x.priority) →
      (evaluate rules o).pesticide = r.pesticideMessage) ∧
    (∀ R1 R2 : AdvisoryRule, R1.priority = 1 → R1.plantingMessage = some "A" →
      R2.priority = 2 → R2.plantingMessage = some "B" →
      R1.predicate o = true → R2.predicate o = true →
      (evaluate [R1, R2] o).planting = some "A" ∧ (evaluate [R2, R1] o).planting = some "A") := by
  have key : ∀ (slot : AdvisoryRule → Option String) (rs pre post : List AdvisoryRule)
      (r : AdvisoryRule), rs = pre ++ r :: post →
      r.predicate o = true → (slot r).isSome = true →
      (∀ x ∈ pre, x.predicate o = true → (slot x).isSome = true → r.priority < x.priority) →
      (∀ x ∈ post, x.predicate o = true → (slot x).isSome = true → r.priority ≤ x.priority) →
      (sortByPriority rs).find? (contributes slot o) = some r := by
    intro slot rs pre post r hrs hp hm hpre hpost
    rw [find_sortByPriority, hrs]
    apply firstByPriority_split
    · simp [contributes, hp, hm]
    · intro x hx hc
      simp only [contributes, Bool.and_eq_true] at hc
      exact hpre x hx hc.1 hc.2
    · intro x hx hc
      simp only [contributes, Bool.and_eq_true] at hc
      exact hpost x hx hc.1 hc.2
  have none_key : ∀ (slot : AdvisoryRule → Option String) (rs : List AdvisoryRule),
      (∀ r ∈ rs, r.predicate o = true → slot r = none) →
      (sortByPriority rs).find? (contributes slot o) = none := by
    intro slot rs h
    rw [find_sortByPriority]
    apply firstByPriority_none
    intro r hr
    cases hp : r.predicate o
    · simp [contributes, hp]
    · simp [contributes, hp, h r hr hp]
  have planting_split : ∀ (rs pre post : List AdvisoryRule) (r : AdvisoryRule),
      rs = pre ++ r :: post → r.predicate o = true → r.plantingMessage.isSome = true →
      (∀ x ∈ pre, x.predicate o = true → x.plantingMessage.isSome = true →
        r.priority < x.priority) →
      (∀ x ∈ post, x.predicate o = true → x.plantingMessage.isSome = true →
        r.priority ≤ x.priority) →
      (evaluate rs o).planting = r.plantingMessage := by
    intro rs pre post r hrs hp hm hpre hpost
    simp only [evaluate, planting_evaluateFrom]
    rw [key (fun r => r.plantingMessage) rs pre post r hrs hp hm hpre hpost]
    rfl
  refine ⟨fun h => ?_, fun pre r post => planting_split rules pre post r, fun h => ?_, ?_, ?_⟩
  · simp only [evaluate, planting_evaluateFrom]
    rw [none_key (fun r => r.plantingMessage) rules h]
    rfl
  · simp only [evaluate, pesticide_evaluateFrom]
    rw [none_key (fun r => r.pesticideMessage) rules h]
    rfl
  · intro pre r post hrs hp hm hpre hpost
    simp only [evaluate, pesticide_evaluateFrom]
    rw [key (fun r => r.pesticideMessage) rules pre post r hrs hp hm hpre hpost]
    rfl
  · intro R1 R2 h1 hA h2 hB hp1 hp2
    constructor
    · rw [planting_split [R1, R2] [] [R2] R1 rfl hp1 (by simp [hA]) (by simp)
        (by intro x hx _ _; simp at hx; subst hx; simp [h1, h2]), hA]
    · rw [planting_split [R2, R1] [R2] [] R1 rfl hp1 (by simp [hA])
        (by intro x hx _ _; simp at hx; subst hx; simp [h1, h2]) (by simp), hA]

/-- C3 on the rule set `[ruleHumid, ruleWarm, ruleLate]` and the sample
observation: all three rules match; `ruleWarm` (priority 1, declared before
`ruleLate` of the same priority) gives the planting field, and `ruleHumid`, the
only rule with a pesticide message, gives the pesticide field. -/
theorem evaluate_first_match_per_slot_witness :
    (evaluate [ruleHumid, ruleWarm, ruleLate] sampleObservation).planting = some "A" ∧
    (evaluate [ruleHumid, ruleWarm, ruleLate] sampleObservation).pesticide = some "P" ∧
    (evaluate [ruleWarm, ruleHumid] sampleObservation).planting = some "A" :=
  have h := evaluate_first_match_per_slot [ruleHumid, ruleWarm, ruleLate] sampleObservation
  have hw : ruleWarm.predicate sampleObservation = true := by
    norm_num [ruleWarm, sampleObservation]
  have hh : ruleHumid.predicate sampleObservation = true := by
    simp [ruleHumid, sampleObservation]
  ⟨h.2.1 [ruleHumid] ruleWarm [ruleLate] rfl hw rfl
      (by intro x hx _ _; simp at hx; subst hx; simp [ruleWarm, ruleHumid])
      (by intro x hx _ _; simp at hx; subst hx; simp [ruleWarm, ruleLate]),
    h.2.2.2.1 [] ruleHumid [ruleWarm, ruleLate] rfl hh rfl
      (by simp)
      (by intro x hx _ hm; simp at hx; rcases hx with rfl | rfl <;> simp [ruleWarm, ruleLate] at hm),
    ((evaluate_first_match_per_slot [] sampleObservation).2.2.2.2 ruleWarm ruleHumid rfl rfl rfl rfl
      hw hh).1⟩

/-! ## Incomplete responses and missing names -/

/-- C4, as stated, fails: `getWeatherByCity` and `getWeather` return a response
without the humidity field, and each handler stores it and invokes
`getPretrainedPlantingAdvice` on it. -/
theorem incomplete_response_reaches_advice :
    weatherNoHumidity.isIncomplete = true ∧
    (envReturning weatherNoHumidity adviseComplete).getWeatherByCity "Testville" "key" =
      .ok weatherNoHumidity ∧
    Effect.getPretrainedPlantingAdvice weatherNoHumidity ∈
      (runHandler (fetchWeatherForCity (envReturning weatherNoHumidity adviseComplete))
        (stateWithCity "Testville")).2.trace ∧
    (runHandler (fetchWeatherForCity (envReturning weatherNoHumidity adviseComplete))
        (stateWithCity "Testville")).2.state.cityWeather = some weatherNoHumidity ∧
    Effect.getPretrainedPlantingAdvice weatherNoHumidity ∈
      (runHandler (fetchCurrentLocationWeather (envReturning weatherNoHumidity adviseComplete))
        initialState).2.trace := by
  refine ⟨rfl, rfl, ?_, ?_, ?_⟩
  · rw [city_advice_fails (envReturning weatherNoHumidity adviseComplete) (stateWithCity "Testville")
      (by decide) weatherNoHumidity "IncompleteObservation" rfl
      (no_throw_of_canRender _ _ _ fun _ => rfl) rfl]
    simp
  · rw [city_advice_fails (envReturning weatherNoHumidity adviseComplete) (stateWithCity "Testville")
      (by decide) weatherNoHumidity "IncompleteObservation" rfl
      (no_throw_of_canRender _ _ _ fun _ => rfl) rfl]
  · rw [location_advice_fails (envReturning weatherNoHumidity adviseComplete) initialState
      sampleCoords weatherNoHumidity "IncompleteObservation" rfl rfl rfl
      (no_throw_of_canRender _ _ _ fun _ => rfl) rfl]
    simp

/-- C4, amended: the handlers make no completeness check of their own.
`getPretrainedPlantingAdvice` is not invoked on a response in two cases, and in
both the handler returns with its error message and `loading` false: when the
lookup fails (with `IncompleteObservation` or any other error), and when the
lookup returns a response without its `main` sub-record or without a first
condition entry under a legacy root with the component mounted, where storing
the response throws the render's `TypeError` inside the `try`.  Every other
response the lookup returns, one without temperature, humidity or description
included, is stored and is the argument of a `getPretrainedPlantingAdvice`
call.  First three conjuncts: `fetchWeatherForCity` with a non-empty city; last
three: `fetchCurrentLocationWeather` with the permission granted and a
position. -/
theorem advice_reached_unless_lookup_or_store_fails (env : Env) (s : AppState) :
    (s.city ≠ "" → ∀ e, env.getWeatherByCity s.city env.apiKey = .error e →
      adviceNotInvoked (runHandler (fetchWeatherForCity env) s).2.trace ∧
      (runHandler (fetchWeatherForCity env) s).1 = .ok () ∧
      (runHandler (fetchWeatherForCity env) s).2.state.errorMessage =
        "City not found or weather data unavailable" ∧
      (runHandler (fetchWeatherForCity env) s).2.state.loading = false) ∧
    (s.city ≠ "" → ∀ w, env.getWeatherByCity s.city env.apiKey = .ok w →
      env.legacyRoot = true → s.canRender = true → w.canRender = false →
      adviceNotInvoked (runHandler (fetchWeatherForCity env) s).2.trace ∧
      (runHandler (fetchWeatherForCity env) s).1 = .ok () ∧
      (runHandler (fetchWeatherForCity env) s).2.state.errorMessage =
        "City not found or weather data unavailable" ∧
      (runHandler (fetchWeatherForCity env) s).2.state.loading = false) ∧
    (s.city ≠ "" → ∀ w, env.getWeatherByCity s.city env.apiKey = .ok w →
      (env.legacyRoot = true → s.canRender = true → w.canRender = true) →
      Effect.getPretrainedPlantingAdvice w ∈ (runHandler (fetchWeatherForCity env) s).2.trace ∧
      (runHandler (fetchWeatherForCity env) s).2.state.cityWeather = some w) ∧
    (env.requestForegroundPermissionsAsync = .ok "granted" →
      ∀ c, env.getCurrentPositionAsync = .ok c →
      ∀ e, env.getWeather c.latitude c.longitude env.apiKey = .error e →
      adviceNotInvoked (runHandler (fetchCurrentLocationWeather env) s).2.trace ∧
      (runHandler (fetchCurrentLocationWeather env) s).1 = .ok () ∧
      (runHandler (fetchCurrentLocationWeather env) s).2.state.errorMessage =
        "Failed to get weather for current location" ∧
      (runHandler (fetchCurrentLocationWeather env) s).2.state.loading = false) ∧
    (env.requestForegroundPermissionsAsync = .ok "granted" →
      ∀ c, env.getCurrentPositionAsync = .ok c →
      ∀ w, env.getWeather c.latitude c.longitude env.apiKey = .ok w →
      env.legacyRoot = true → s.canRender = true → w.canRender = false →
      adviceNotInvoked (runHandler (fetchCurrentLocationWeather env) s).2.trace ∧
      (runHandler (fetchCurrentLocationWeather env) s).1 = .ok () ∧
      (runHandler (fetchCurrentLocationWeather env) s).2.state.errorMessage =
        "Failed to get weather for current location" ∧
      (runHandler (fetchCurrentLocationWeather env) s).2.state.loading = false) ∧
    (env.requestForegroundPermissionsAsync = .ok "granted" →
      ∀ c, env.getCurrentPositionAsync = .ok c →
      ∀ w, env.getWeather c.latitude c.longitude env.apiKey = .ok w →
      (env.legacyRoot = true → s.canRender = true → w.canRender = true) →
      Effect.getPretrainedPlantingAdvice w ∈
        (runHandler (fetchCurrentLocationWeather env) s).2.trace ∧
      (runHandler (fetchCurrentLocationWeather env) s).2.state.currentWeather = some w) := by
  have noThrow : ∀ w : Weather,
      (env.legacyRoot = true → s.canRender = true → w.canRender = true) →
      ¬ (env.legacyRoot = true ∧ s.canRender = true ∧ w.canRender = false) := by
    rintro w h ⟨h1, h2, h3⟩
    rw [h h1 h2] at h3
    cases h3
  refine ⟨fun hc e hw => ?_, fun hc w hw hl hs hr => ?_, fun hc w hw hT => ?_,
    fun hp c hl e hw => ?_, fun hp c hl w hw hroot hs hr => ?_, fun hp c hl w hw hT => ?_⟩
  · rw [city_lookup_fails env s hc e hw]
    simp [adviceNotInvoked]
  · rw [city_store_throws env s hc w hw hl hs hr]
    simp [adviceNotInvoked]
  · cases ha : env.getPretrainedPlantingAdvice w with
    | error e =>
      rw [city_advice_fails env s hc w e hw (noThrow w hT) ha]
      simp
    | ok a =>
      rw [city_succeeds env s hc w a hw (noThrow w hT) ha]
      simp
  · rw [location_lookup_fails env s c e hp hl hw]
    simp [adviceNotInvoked]
  · rw [location_store_throws env s c w hp hl hw hroot hs hr]
    simp [adviceNotInvoked]
  · cases ha : env.getPretrainedPlantingAdvice w with
    | error e =>
      rw [location_advice_fails env s c w e hp hl hw (noThrow w hT) ha]
      simp
    | ok a =>
      rw [location_succeeds env s c w a hp hl hw (noThrow w hT) ha]
      simp

/-- The amended C4 on sample collaborators under a legacy root: a failing city
lookup leaves `getPretrainedPlantingAdvice` uncalled; so does a city lookup
that returns the response without `main`; and a current-location lookup that
returns the response without humidity has it stored and passed on. -/
theorem advice_reached_unless_lookup_or_store_fails_witness :
    adviceNotInvoked
      (runHandler (fetchWeatherForCity (envFailing "granted")) (stateWithCity "Atlantis")).2.trace ∧
    adviceNotInvoked
      (runHandler (fetchWeatherForCity (envReturning weatherNoMain adviseComplete))
        (stateWithCity "Testville")).2.trace ∧
    (Effect.getPretrainedPlantingAdvice weatherNoHumidity ∈
      (runHandler (fetchCurrentLocationWeather (envReturning weatherNoHumidity adviseComplete))
        initialState).2.trace ∧
    (runHandler (fetchCurrentLocationWeather (envReturning weatherNoHumidity adviseComplete))
      initialState).2.state.currentWeather = some weatherNoHumidity) :=
  ⟨((advice_reached_unless_lookup_or_store_fails (envFailing "granted")
      (stateWithCity "Atlantis")).1 (by decide) "Network request failed" rfl).1,
    ((advice_reached_unless_lookup_or_store_fails (envReturning weatherNoMain adviseComplete)
      (stateWithCity "Testville")).2.1 (by decide) weatherNoMain rfl rfl rfl rfl).1,
    (advice_reached_unless_lookup_or_store_fails (envReturning weatherNoHumidity adviseComplete)
      initialState).2.2.2.2.2 rfl sampleCoords rfl weatherNoHumidity rfl (fun _ _ => rfl)⟩

/-- C5 at a response that is complete except for its name, returned by
`getWeatherByCity`: the handler ends without an error message, the `Location:`
line shows no name, and the title of the city block reads `undefined` after
the city emoji. -/
theorem missing_name_title_reads_undefined :
    (runHandler (fetchWeatherForCity (envReturning weatherNoName fun _ => .ok noAdvice))
      (stateWithCity "Testville")).2.state.errorMessage = "" ∧
    cityBlock (runHandler (fetchWeatherForCity (envReturning weatherNoName fun _ => .ok noAdvice))
      (stateWithCity "Testville")).2.state =
      .ok (.view .card
        [ .text (some .sectionTitle) [.str "🏙️ undefined"],
          .text none [.str "📍 Location: ", .nothing],
          .text none [.str "🌡️ Temperature: ", .num 25, .str "°C"],
          .text none [.str "💧 Humidity: ", .num 60, .str "%"],
          .text none [.str "🌤️ Condition: ", .str "clear sky"],
          .nothing,
          .nothing ]) := by
  rw [city_succeeds (envReturning weatherNoName fun _ => .ok noAdvice) (stateWithCity "Testville")
    (by decide) weatherNoName noAdvice rfl (no_throw_of_canRender _ _ _ fun _ => rfl) rfl]
  refine ⟨rfl, ?_⟩
  simp only [cityBlock]
  rw [renderWeatherBlock_ok _ weatherNoName _ ⟨some 25, some 60⟩ ⟨some "clear sky"⟩ [] rfl rfl]
  rfl

/-! ## Rendering the advisory -/

/-- C6, as stated, fails: on the record without its `main` sub-record the
advisory step returns an advisory with both slots absent, yet
`renderWeatherBlock` produces no block at all (a `TypeError`), and under a
legacy root the city handler ends with its error message. -/
theorem unrenderable_record_renders_no_block :
    (envReturning weatherNoMain fun _ => .ok noAdvice).getPretrainedPlantingAdvice weatherNoMain =
      .ok noAdvice ∧
    noAdvice.planting = none ∧ noAdvice.pesticide = none ∧
    renderWeatherBlock (cityTitle weatherNoMain) weatherNoMain (some noAdvice) =
      .error "TypeError" ∧
    renderWeatherBlock "📍 Current Location" weatherNoMain (some noAdvice) = .error "TypeError" ∧
    (runHandler (fetchWeatherForCity (envReturning weatherNoMain fun _ => .ok noAdvice))
      (stateWithCity "Testville")).2.state.errorMessage =
      "City not found or weather data unavailable" := by
  refine ⟨rfl, rfl, rfl, rfl, rfl, ?_⟩
  rw [city_store_throws (envReturning weatherNoMain fun _ => .ok noAdvice)
    (stateWithCity "Testville") (by decide) weatherNoMain rfl rfl rfl rfl]

/-- C6, amended: no advisory applicable is a success.  For a weather record `w`
with its `main` sub-record and a first condition entry, on which
`getPretrainedPlantingAdvice` returns an advisory with both slots absent, each
fetch handler that gets `w` from its lookup returns with `errorMessage` empty
and `w` stored as the block's weather, and `renderWeatherBlock` on the block's
weather and advice gives the title and the four weather lines, with nothing in
the place of either advice block. -/
theorem no_advisory_is_success (env : Env) (s : AppState) (w : Weather) (a : Advice)
    (m : Main) (c : Condition) (cs : List Condition)
    (hm : w.main = some m) (hw : w.weather = some (c :: cs))
    (ha : env.getPretrainedPlantingAdvice w = .ok a)
    (hplanting : a.planting = none) (hpesticide : a.pesticide = none) :
    (s.city ≠ "" → env.getWeatherByCity s.city env.apiKey = .ok w →
      (runHandler (fetchWeatherForCity env) s).1 = .ok () ∧
      (runHandler (fetchWeatherForCity env) s).2.state.errorMessage = "" ∧
      (runHandler (fetchWeatherForCity env) s).2.state.cityWeather = some w ∧
      ∀ title, renderWeatherBlock title w (runHandler (fetchWeatherForCity env) s).2.state.cityAdvice =
        .ok (.view .card
          [ .text (some .sectionTitle) [.str title],
            .text none [.str "📍 Location: ", strChild w.name],
            .text none [.str "🌡️ Temperature: ", numChild m.temp, .str "°C"],
            .text none [.str "💧 Humidity: ", numChild m.humidity, .str "%"],
            .text none [.str "🌤️ Condition: ", strChild c.description],
            .nothing,
            .nothing ])) ∧
    (∀ p : Coords, env.requestForegroundPermissionsAsync = .ok "granted" →
      env.getCurrentPositionAsync = .ok p →
      env.getWeather p.latitude p.longitude env.apiKey = .ok w →
      (runHandler (fetchCurrentLocationWeather env) s).1 = .ok () ∧
      (runHandler (fetchCurrentLocationWeather env) s).2.state.errorMessage = "" ∧
      (runHandler (fetchCurrentLocationWeather env) s).2.state.currentWeather = some w ∧
      ∀ title, renderWeatherBlock title w
          (runHandler (fetchCurrentLocationWeather env) s).2.state.locationAdvice =
        .ok (.view .card
          [ .text (some .sectionTitle) [.str title],
            .text none [.str "📍 Location: ", strChild w.name],
            .text none [.str "🌡️ Temperature: ", numChild m.temp, .str "°C"],
            .text none [.str "💧 Humidity: ", numChild m.humidity, .str "%"],
            .text none [.str "🌤️ Condition: ", strChild c.description],
            .nothing,
            .nothing ])) := by
  have hcan : w.canRender = true := by simp [Weather.canRender, hm, hw]
  have hT := no_throw_of_canRender env s w fun _ => hcan
  refine ⟨fun hc hl => ?_, fun p hp hl hg => ?_⟩
  · rw [city_succeeds env s hc w a hl hT ha]
    refine ⟨rfl, rfl, rfl, fun title => ?_⟩
    rw [renderWeatherBlock_ok title w _ m c cs hm hw]
    simp [adviceSlot, hplanting, hpesticide]
  · rw [location_succeeds env s p w a hp hl hg hT ha]
    refine ⟨rfl, rfl, rfl, fun title => ?_⟩
    rw [renderWeatherBlock_ok title w _ m c cs hm hw]
    simp [adviceSlot, hplanting, hpesticide]

/-- The amended C6 on the sample response with an advisory step that finds
nothing to say: the city block is the title and the four lines. -/
theorem no_advisory_is_success_witness :
    (runHandler (fetchWeatherForCity (envReturning sampleWeather fun _ => .ok noAdvice))
      (stateWithCity "Testville")).2.state.errorMessage = "" ∧
    renderWeatherBlock "🏙️ Testville" sampleWeather
      (runHandler (fetchWeatherForCity (envReturning sampleWeather fun _ => .ok noAdvice))
        (stateWithCity "Testville")).2.state.cityAdvice =
      .ok (.view .card
        [ .text (some .sectionTitle) [.str "🏙️ Testville"],
          .text none [.str "📍 Location: ", .str "Testville"],
          .text none [.str "🌡️ Temperature: ", .num 25, .str "°C"],
          .text none [.str "💧 Humidity: ", .num 60, .str "%"],
          .text none [.str "🌤️ Condition: ", .str "clear sky"],
          .nothing,
          .nothing ]) :=
  have h := (no_advisory_is_success (envReturning sampleWeather fun _ => .ok noAdvice)
    (stateWithCity "Testville") sampleWeather noAdvice ⟨some 25, some 60⟩ ⟨some "clear sky"⟩ []
    rfl rfl rfl rfl rfl).1 (by decide) rfl
  ⟨h.2.1, h.2.2.2 "🏙️ Testville"⟩

/-- C7, as stated, fails: for an advisory whose planting slot is present and
holds the empty string, the output has that empty string where the block would
be and no `Planting Advice` block with the slot's text. -/
theorem empty_planting_slot_shows_no_block :
    emptyPlantingAdvice.planting = some "" ∧
    renderWeatherBlock "📍 Current Location" sampleWeather (some emptyPlantingAdvice) =
      .ok (.view .card
        [ .text (some .sectionTitle) [.str "📍 Current Location"],
          .text none [.str "📍 Location: ", .str "Testville"],
          .text none [.str "🌡️ Temperature: ", .num 25, .str "°C"],
          .text none [.str "💧 Humidity: ", .num 60, .str "%"],
          .text none [.str "🌤️ Condition: ", .str "clear sky"],
          .str "",
          adviceBlock "🧪 Pesticide Control" "Spray neem oil" ]) ∧
    adviceBlock "🌱 Planting Advice" "" ∉
      (Node.view .card
        [ .text (some .sectionTitle) [.str "📍 Current Location"],
          .text none [.str "📍 Location: ", .str "Testville"],
          .text none [.str "🌡️ Temperature: ", .num 25, .str "°C"],
          .text none [.str "💧 Humidity: ", .num 60, .str "%"],
          .text none [.str "🌤️ Condition: ", .str "clear sky"],
          .str "",
          adviceBlock "🧪 Pesticide Control" "Spray neem oil" ]).children := by
  refine ⟨rfl, ?_, ?_⟩
  · rw [renderWeatherBlock_ok _ sampleWeather _ ⟨some 25, some 60⟩ ⟨some "clear sky"⟩ [] rfl rfl]
    rfl
  · simp [Node.children, adviceBlock]

/-- C7, amended: in every output of `renderWeatherBlock`, a `Planting Advice`
block with text `p` is among the children exactly when the advice is non-null
and its planting slot is the non-empty string `p`, and a `Pesticide Control`
block with text `p` exactly when the advice is non-null and its pesticide slot
is the non-empty string `p`; so two advisories with the same planting slot show
the same planting blocks whatever their pesticide slots, and conversely.  An
output exists for every weather record with its `main` sub-record and a first
condition entry. -/
theorem advice_blocks_follow_nonempty_slots (title : String) (w : Weather)
    (advice : Option Advice) :
    (∀ out, renderWeatherBlock title w advice = .ok out →
      (∀ p, adviceBlock "🌱 Planting Advice" p ∈ out.children ↔
        ∃ a, advice = some a ∧ a.planting = some p ∧ p ≠ "") ∧
      (∀ p, adviceBlock "🧪 Pesticide Control" p ∈ out.children ↔
        ∃ a, advice = some a ∧ a.pesticide = some p ∧ p ≠ "")) ∧
    (∀ a a' out out', advice = some a →
      renderWeatherBlock title w (some a) = .ok out →
      renderWeatherBlock title w (some a') = .ok out' →
      (a.planting = a'.planting →
        ∀ p, adviceBlock "🌱 Planting Advice" p ∈ out.children ↔
          adviceBlock "🌱 Planting Advice" p ∈ out'.children) ∧
      (a.pesticide = a'.pesticide →
        ∀ p, adviceBlock "🧪 Pesticide Control" p ∈ out.children ↔
          adviceBlock "🧪 Pesticide Control" p ∈ out'.children)) ∧
    (∀ m c cs, w.main = some m → w.weather = some (c :: cs) →
      ∃ out, renderWeatherBlock title w advice = .ok out) := by
  have hne : "🌱 Planting Advice" ≠ "🧪 Pesticide Control" := by decide
  have planting : ∀ (adv : Option Advice) (out : Node),
      renderWeatherBlock title w adv = .ok out →
      ∀ p, adviceBlock "🌱 Planting Advice" p ∈ out.children ↔
        ∃ a, adv = some a ∧ a.planting = some p ∧ p ≠ "" := by
    intro adv out h p
    rw [block_mem_rendered title w adv out h]
    cases adv with
    | none => simp
    | some a => simp [hne]
  have pesticide : ∀ (adv : Option Advice) (out : Node),
      renderWeatherBlock title w adv = .ok out →
      ∀ p, adviceBlock "🧪 Pesticide Control" p ∈ out.children ↔
        ∃ a, adv = some a ∧ a.pesticide = some p ∧ p ≠ "" := by
    intro adv out h p
    rw [block_mem_rendered title w adv out h]
    cases adv with
    | none => simp
    | some a => simp [hne.symm]
  refine ⟨fun out h => ⟨planting advice out h, pesticide advice out h⟩, ?_, ?_⟩
  · intro a a' out out' _ h h'
    constructor
    · intro heq p
      rw [planting _ out h, planting _ out' h']
      simp [heq]
    · intro heq p
      rw [pesticide _ out h, pesticide _ out' h']
      simp [heq]
  · intro m c cs hm hw
    exact ⟨_, renderWeatherBlock_ok title w advice m c cs hm hw⟩

/-- The amended C7 on the sample response and `sampleAdvice`: the planting block
is shown with the slot's text. -/
theorem advice_blocks_follow_nonempty_slots_witness :
    adviceBlock "🌱 Planting Advice" "Ideal for sowing maize" ∈
      (Node.view .card
        [ .text (some .sectionTitle) [.str "📍 Current Location"],
          .text none [.str "📍 Location: ", strChild sampleWeather.name],
          .text none [.str "🌡️ Temperature: ", numChild (some 25), .str "°C"],
          .text none [.str "💧 Humidity: ", numChild (some 60), .str "%"],
          .text none [.str "🌤️ Condition: ", strChild (some "clear sky")],
          adviceSlot "🌱 Planting Advice" (some "Ideal for sowing maize"),
          adviceSlot "🧪 Pesticide Control" none ]).children :=
  (((advice_blocks_follow_nonempty_slots "📍 Current Location" sampleWeather (some sampleAdvice)).1
    _ (renderWeatherBlock_ok _ sampleWeather _ ⟨some 25, some 60⟩ ⟨some "clear sky"⟩ [] rfl rfl)).1
    "Ideal for sowing maize").2 ⟨sampleAdvice, rfl, rfl, by decide⟩

/-! ## Pairing of weather and advice across runs -/

/-- What every run does preserve: in the state after any events, a block whose
weather record can be rendered and is accepted by the advisory step shows the
advice of that record. -/
theorem advice_current_when_step_succeeds (advise : Weather → Except JSError Advice)
    (events : List Event) (w : Weather) (a : Advice) (ha : advise w = .ok a)
    (hcan : w.canRender = true) :
    ((runEvents advise events).currentWeather = some w →
      (runEvents advise events).locationAdvice = some a) ∧
    ((runEvents advise events).cityWeather = some w →
      (runEvents advise events).cityAdvice = some a) := by
  have step : ∀ (s : AppState) (ev : Event),
      ((s.currentWeather = some w → s.locationAdvice = some a) ∧
        (s.cityWeather = some w → s.cityAdvice = some a)) →
      (((applyEvent advise s ev).currentWeather = some w →
          (applyEvent advise s ev).locationAdvice = some a) ∧
        ((applyEvent advise s ev).cityWeather = some w →
          (applyEvent advise s ev).cityAdvice = some a)) := by
    intro s ev hs
    cases ev with
    | typeCity text => simpa [applyEvent, runHandler, setCity_eq] using hs
    | checkCity env =>
      simp only [applyEvent]
      generalize henv : ({ env with getPretrainedPlantingAdvice := advise } : Env) = env'
      have hadv : env'.getPretrainedPlantingAdvice = advise := by rw [← henv]
      by_cases hc : s.city = ""
      · rw [city_empty env' s hc]
        exact hs
      · cases hw : env'.getWeatherByCity s.city env'.apiKey with
        | error e =>
          rw [city_lookup_fails env' s hc e hw]
          exact hs
        | ok w1 =>
          by_cases hT : env'.legacyRoot = true ∧ s.canRender = true ∧ w1.canRender = false
          · rw [city_store_throws env' s hc w1 hw hT.1 hT.2.1 hT.2.2]
            refine ⟨hs.1, fun h => ?_⟩
            simp only [Option.some.injEq] at h
            subst h
            rw [hcan] at hT
            exact absurd hT.2.2 (by simp)
          · cases ha1 : env'.getPretrainedPlantingAdvice w1 with
            | error e =>
              rw [city_advice_fails env' s hc w1 e hw hT ha1]
              refine ⟨hs.1, fun h => ?_⟩
              simp only [Option.some.injEq] at h
              subst h
              rw [hadv, ha] at ha1
              cases ha1
            | ok a1 =>
              rw [city_succeeds env' s hc w1 a1 hw hT ha1]
              refine ⟨hs.1, fun h => ?_⟩
              simp only [Option.some.injEq] at h
              subst h
              rw [hadv, ha] at ha1
              cases ha1
              rfl
    | refreshLocation env =>
      simp only [applyEvent]
      generalize henv : ({ env with getPretrainedPlantingAdvice := advise } : Env) = env'
      have hadv : env'.getPretrainedPlantingAdvice = advise := by rw [← henv]
      cases hp : env'.requestForegroundPermissionsAsync with
      | error e =>
        rw [location_permission_fails env' s e hp]
        exact hs
      | ok status =>
        by_cases hg : status = "granted"
        · subst hg
          cases hl : env'.getCurrentPositionAsync with
          | error e =>
            rw [location_position_fails env' s e hp hl]
            exact hs
          | ok c =>
            cases hw : env'.getWeather c.latitude c.longitude env'.apiKey with
            | error e =>
              rw [location_lookup_fails env' s c e hp hl hw]
              exact hs
            | ok w1 =>
              by_cases hT : env'.legacyRoot = true ∧ s.canRender = true ∧ w1.canRender = false
              · rw [location_store_throws env' s c w1 hp hl hw hT.1 hT.2.1 hT.2.2]
                refine ⟨fun h => ?_, hs.2⟩
                simp only [Option.some.injEq] at h
                subst h
                rw [hcan] at hT
                exact absurd hT.2.2 (by simp)
              · cases ha1 : env'.getPretrainedPlantingAdvice w1 with
                | error e =>
                  rw [location_advice_fails env' s c w1 e hp hl hw hT ha1]
                  refine ⟨fun h => ?_, hs.2⟩
                  simp only [Option.some.injEq] at h
                  subst h
                  rw [hadv, ha] at ha1
                  cases ha1
                | ok a1 =>
                  rw [location_succeeds env' s c w1 a1 hp hl hw hT ha1]
                  refine ⟨fun h => ?_, hs.2⟩
                  simp only [Option.some.injEq] at h
                  subst h
                  rw [hadv, ha] at ha1
                  cases ha1
                  rfl
        · rw [location_denied env' s status hp hg]
          exact hs
  have gen : ∀ (evs : List Event) (s : AppState),
      ((s.currentWeather = some w → s.locationAdvice = some a) ∧
        (s.cityWeather = some w → s.cityAdvice = some a)) →
      (((evs.foldl (applyEvent advise) s).currentWeather = some w →
          (evs.foldl (applyEvent advise) s).locationAdvice = some a) ∧
        ((evs.foldl (applyEvent advise) s).cityWeather = some w →
          (evs.foldl (applyEvent advise) s).cityAdvice = some a)) := by
    intro evs
    induction evs with
    | nil => exact fun s hs => hs
    | cons ev evs ih => exact fun s hs => ih _ (step s ev hs)
  exact gen events initialState (by simp [initialState])

/-- C8 at two refreshes of the current location, the first answered with the
complete sample response, the second with the response without humidity, which
the advisory step rejects: the second response is stored, the advice of the
first stays, and the current-location block shows the weather of the second
response above the planting advice computed for the first. -/
theorem stale_advice_after_failed_advisory_step :
    adviseComplete sampleWeather = .ok sampleAdvice ∧
    adviseComplete weatherNoHumidity = .error "IncompleteObservation" ∧
    (runEvents adviseComplete
      [.refreshLocation (envReturning sampleWeather adviseComplete),
       .refreshLocation (envReturning weatherNoHumidity adviseComplete)]).currentWeather =
      some weatherNoHumidity ∧
    (runEvents adviseComplete
      [.refreshLocation (envReturning sampleWeather adviseComplete),
       .refreshLocation (envReturning weatherNoHumidity adviseComplete)]).locationAdvice =
      some sampleAdvice ∧
    pairedWith adviseComplete
      (runEvents adviseComplete
        [.refreshLocation (envReturning sampleWeather adviseComplete),
         .refreshLocation (envReturning weatherNoHumidity adviseComplete)]).currentWeather
      (runEvents adviseComplete
        [.refreshLocation (envReturning sampleWeather adviseComplete),
         .refreshLocation (envReturning weatherNoHumidity adviseComplete)]).locationAdvice = false ∧
    currentLocationBlock (runEvents adviseComplete
      [.refreshLocation (envReturning sampleWeather adviseComplete),
       .refreshLocation (envReturning weatherNoHumidity adviseComplete)]) =
      .ok (.view .card
        [ .text (some .sectionTitle) [.str "📍 Current Location"],
          .text none [.str "📍 Location: ", .str "Testville"],
          .text none [.str "🌡️ Temperature: ", .num 31, .str "°C"],
          .text none [.str "💧 Humidity: ", .nothing, .str "%"],
          .text none [.str "🌤️ Condition: ", .str "light rain"],
          adviceBlock "🌱 Planting Advice" "Ideal for sowing maize",
          .nothing ]) := by
  have hrun : runEvents adviseComplete
      [.refreshLocation (envReturning sampleWeather adviseComplete),
       .refreshLocation (envReturning weatherNoHumidity adviseComplete)] =
      { initialState with
        currentWeather := some weatherNoHumidity, locationAdvice := some sampleAdvice,
        errorMessage := "Failed to get weather for current location" } := by
    simp only [runEvents, List.foldl, applyEvent]
    rw [location_succeeds _ initialState sampleCoords sampleWeather sampleAdvice rfl rfl rfl
      (no_throw_of_canRender _ _ _ fun _ => rfl) rfl]
    rw [location_advice_fails _ _ sampleCoords weatherNoHumidity "IncompleteObservation"
      rfl rfl rfl (no_throw_of_canRender _ _ _ fun _ => rfl) rfl]
    rfl
  rw [hrun]
  refine ⟨rfl, rfl, rfl, rfl, rfl, ?_⟩
  simp only [currentLocationBlock]
  rw [renderWeatherBlock_ok _ weatherNoHumidity _ ⟨some 31, none⟩ ⟨some "light rain"⟩ [] rfl rfl]
  rfl

end CropApp
